import Mathlib

/-!
Shallow embedding of the colony-simulation engine of the Elitev2 repository
(`src/config.py`, `src/buildings.py`, `src/game_state.py`, command handling in
`src/main.py`), together with theorems settling the frozen claims C1..C10.

Modelling conventions:
* Python `int` values that can go negative (credits, city_value, resource
  quantities, catalog costs/rates) are `Int`; counters and sizes that the code
  keeps non-negative (game_time, population, power, tile coordinates, timers,
  the time multiplier) are `Nat`.  `max(0, population - 1)` is Nat subtraction.
* Python dicts keyed by strings are association lists (`List (String × _)`)
  with first-match lookup; `dict.get(k, d)` is `(lookup k).getD d`.
* Python object identity: each `Building` carries an `id` field; a freshly
  constructed object has an id different from every live building, which is
  how `list.remove` / `in` (identity-based for these objects) are modelled.
* Code that can raise an exception that actually gets observed (the
  `ZeroDivisionError` from dividing by `time_multiplier`, the caught
  exceptions inside `load_from_data`) is modelled with `Option`: `none` means
  the Python call raised (or returned `False` from its `except` block).
  Divisions whose divisor is a positive constant in the shipped configuration
  (`FPS = 60`, converter `cycle_time_seconds ∈ {5, 10}`) are modelled with
  total `Nat` division and noted at the use site.
* `print` calls, pygame rendering, sounds, and pixel geometry
  (`pixel_x/pixel_y`, `tile_size`, `get_rect`, `is_selected`) have no
  simulation effect and are omitted.
-/

/-- Unlock conditions of a building type (`config.BUILDING_TYPES[...]["unlock_conditions"]`):
a dict that may carry `"pop"`, `"rank"`, `"tech"` keys. -/
structure UnlockConditions where
  pop : Option Nat := none
  rank : Option String := none
  tech : Option String := none
  deriving DecidableEq, Repr

/-- One catalog entry of `config.BUILDING_TYPES`.  Field defaults are exactly
the `.get(key, default)` fallbacks used by `Building.__init__`. -/
structure BuildingTypeDef where
  cost : Int := 0
  power_draw : Nat := 0
  power_gen : Nat := 0
  income : Int := 0
  capacity : Nat := 0
  width_tiles : Nat := 1
  height_tiles : Nat := 1
  output_rate : Int := 0
  resource_type : Option String := none
  placed_on_node_type : Option String := none
  input_resource : Option String := none
  input_amount : Int := 0
  output_resource : Option String := none
  cycle_time_seconds : Nat := 5
  unlock_conditions : UnlockConditions := {}
  deriving DecidableEq, Repr

/-- The configuration module `src/config.py` (the fields the engine reads). -/
structure Config where
  FPS : Nat
  INITIAL_CREDITS : Int
  INITIAL_POPULATION : Nat
  INITIAL_POWER : Nat
  GRID_WIDTH : Nat
  GRID_HEIGHT : Nat
  BUILDING_TYPES : List (String × BuildingTypeDef)
  RESOURCE_TYPES : List String
  CITY_RANKS : List (String × Int)
  DEFAULT_TIME_MULTIPLIER : Nat
  deriving DecidableEq, Repr

/-- `src/config.py` with its literal values (colors, paths, UI and sound
settings omitted as presentation-only). -/
def defaultConfig : Config where
  FPS := 60
  INITIAL_CREDITS := 10000
  INITIAL_POPULATION := 10
  INITIAL_POWER := 100
  GRID_WIDTH := 50
  GRID_HEIGHT := 50
  BUILDING_TYPES :=
    [ ("COMMAND_CENTER", { cost := 5000, power_draw := 10 }),
      ("HAB_DOME", { cost := 500, power_draw := 2, capacity := 10, income := 10 }),
      ("SOLAR_PANEL_ARRAY", { cost := 1000, power_gen := 20 }),
      ("POWER_CONDUIT", { cost := 50, power_draw := 0 }),
      ("RESOURCE_EXTRACTOR",
        { cost := 1500, power_draw := 5, output_rate := 1,
          resource_type := some "RAW_ORE",
          unlock_conditions := { pop := some 20 } }),
      ("FACTORY_PARTS",
        { cost := 2000, power_draw := 15,
          input_resource := some "RAW_ORE", input_amount := 2,
          output_resource := some "CONSTRUCTION_PARTS", output_rate := 1,
          cycle_time_seconds := 5,
          unlock_conditions := { pop := some 50, tech := some "basic_manufacturing" } }),
      ("LIFE_SUPPORT_NEXUS",
        { cost := 2500, power_draw := 20,
          unlock_conditions := { rank := some "Colony Supervisor" } }),
      ("PUMPJACK",
        { cost := 2200, power_draw := 15, output_rate := 2,
          resource_type := some "OIL", placed_on_node_type := some "OIL_NODE",
          unlock_conditions := { pop := some 30, rank := some "Colony Starter" } }),
      ("MINER_IRON",
        { cost := 1800, power_draw := 10, output_rate := 1,
          resource_type := some "IRON_ORE", placed_on_node_type := some "IRON_NODE",
          unlock_conditions := { pop := some 25 } }),
      ("MINER_COPPER",
        { cost := 1800, power_draw := 10, output_rate := 1,
          resource_type := some "COPPER_ORE", placed_on_node_type := some "COPPER_NODE",
          unlock_conditions := { pop := some 25 } }),
      ("FUEL_REFINERY",
        { cost := 3000, power_draw := 25,
          input_resource := some "OIL", input_amount := 2,
          output_resource := some "SPACESHIP_FUEL", output_rate := 1,
          cycle_time_seconds := 10,
          unlock_conditions := { pop := some 75, tech := some "fuel_processing" } }),
      ("SPACEPORT",
        { cost := 50000, power_draw := 100, width_tiles := 3, height_tiles := 3,
          unlock_conditions := { rank := some "System Governor",
                                 tech := some "orbital_construction" } }) ]
  RESOURCE_TYPES :=
    ["RAW_ORE", "CONSTRUCTION_PARTS", "FOOD_UNITS",
     "OIL", "IRON_ORE", "COPPER_ORE", "SPACESHIP_FUEL", "SHIP_PARTS"]
  CITY_RANKS :=
    [("Outpost Surveyor", 0), ("Colony Starter", 10000),
     ("Colony Supervisor", 50000), ("Urban Planner", 150000),
     ("System Governor", 500000), ("Elite Urbanist", 1000000)]
  DEFAULT_TIME_MULTIPLIER := 1

/-- A placed building instance (`buildings.Building`).  `Building.__init__`
copies the catalog values onto the instance; attributes that `__init__` only
sets for certain `type_key`s are stored unconditionally here, which is
faithful because `Building.update` reads each of them only inside the branch
guarded by the corresponding `type_key`.  `id` models Python object
identity (see the header). -/
structure Building where
  id : Nat
  type_key : String
  cost : Int
  power_draw : Nat
  power_gen : Nat
  income : Int
  grid_x : Nat
  grid_y : Nat
  width_tiles : Nat
  height_tiles : Nat
  is_operational : Bool
  capacity : Nat
  output_rate : Int
  resource_type : Option String
  placed_on_node_type : Option String
  input_resource : Option String
  input_amount : Int
  output_resource : Option String
  cycle_time_seconds : Nat
  production_timer_ticks : Nat
  deriving DecidableEq, Repr

/-- `Building(building_type_key, config_data, grid_x, grid_y, tile_size)`:
`config_data[building_type_key]` raises `KeyError` for an unknown key, hence
`Option`.  The new object is born with `is_operational = True` and a zero
production timer. -/
def mkBuildingFromDef (i : Nat) (key : String) (d : BuildingTypeDef) (gx gy : Nat) : Building :=
  { id := i, type_key := key, cost := d.cost, power_draw := d.power_draw,
    power_gen := d.power_gen, income := d.income, grid_x := gx, grid_y := gy,
    width_tiles := d.width_tiles, height_tiles := d.height_tiles,
    is_operational := true, capacity := d.capacity,
    output_rate := d.output_rate, resource_type := d.resource_type,
    placed_on_node_type := d.placed_on_node_type,
    input_resource := d.input_resource, input_amount := d.input_amount,
    output_resource := d.output_resource,
    cycle_time_seconds := d.cycle_time_seconds,
    production_timer_ticks := 0 }

def mkBuilding (i : Nat) (key : String) (catalog : List (String × BuildingTypeDef))
    (gx gy : Nat) : Option Building :=
  match catalog.lookup key with
  | none => none
  | some d => some (mkBuildingFromDef i key d gx gy)

/-! ### Resource stockpiles (`game_state.resources`, a Python dict) -/

/-- `resources.get(k, 0)`. -/
def resGet (rs : List (String × Int)) (k : String) : Int :=
  (rs.lookup k).getD 0

/-- `resources[k] = v`: replace the value of an existing key, or append a new
key (Python dicts keep insertion order). -/
def resSet : List (String × Int) → String → Int → List (String × Int)
  | [], k, v => [(k, v)]
  | (k0, v0) :: rest, k, v =>
    if k0 = k then (k0, v) :: rest else (k0, v0) :: resSet rest k v

/-! ### The city grid (`game_state.grid`, a list of rows of cell references) -/

abbrev Grid := List (List (Option Building))

/-- Read `grid[y][x]`; out-of-range reads yield `none` (they only occur in
positions the code has bounds-guarded). -/
def getCell (g : Grid) (x y : Nat) : Option Building :=
  ((g[y]?.getD [])[x]?.getD none)

/-- Write `grid[y][x] = v`; `List.set` ignores out-of-range writes, which
coincides with the bounds guard in `remove_building`'s clearing loop (the
only caller that can go out of range). -/
def setCell (g : Grid) (x y : Nat) (v : Option Building) : Grid :=
  g.set y ((g[y]?.getD []).set x v)

/-- The cells `(grid_x + c_offset, grid_y + r_offset)` visited by the nested
`for r_offset in range(height): for c_offset in range(width)` loops of
`add_building` / `remove_building`, in loop order. -/
def footprintCells (gx gy w h : Nat) : List (Nat × Nat) :=
  (List.range h).flatMap (fun r => (List.range w).map (fun c => (gx + c, gy + r)))

/-- Run one of those nested loops: assign `v` to every listed cell. -/
def markCells (g : Grid) (cells : List (Nat × Nat)) (v : Option Building) : Grid :=
  match cells with
  | [] => g
  | p :: rest => markCells (setCell g p.1 p.2 v) rest v

/-- The freshly allocated `GRID_HEIGHT × GRID_WIDTH` grid of `None`s. -/
def freshGrid (cfg : Config) : Grid :=
  List.replicate cfg.GRID_HEIGHT (List.replicate cfg.GRID_WIDTH none)

/-! ### The colony state (`game_state.GameState`) -/

/-- The fields of `GameState` that the simulation engine reads or writes.
(`selected_building_type`, `current_tool`, `clock`, `ship_parts_inventory`
and the sound manager are input/UI plumbing and never touched by the
methods modelled here; `city_rank` is the display name kept alongside
`city_rank_index`.) -/
structure GameState where
  cfg : Config
  credits : Int
  population : Nat
  power_capacity : Nat
  power_demand : Nat
  resources : List (String × Int)
  buildings : List Building
  grid : Grid
  game_time : Nat
  city_rank_index : Nat
  city_rank : String
  city_value : Int
  unlocked_technologies : List String
  current_alerts : List String
  time_multiplier : Nat
  resource_grid : List (List (Option String))
  selected_building_instance : Option Building
  deriving DecidableEq, Repr

/-- Read `resource_grid[y][x]` (always bounds-guarded by callers). -/
def getNode (rg : List (List (Option String))) (x y : Nat) : Option String :=
  ((rg[y]?.getD [])[x]?.getD none)

/-- `GameState.__init__`.  `_generate_resource_nodes` places random patches;
the randomness is not part of the engine, so the resulting node layout is
taken as the parameter `rg` (an all-`none` layout is one possible outcome). -/
def initState (cfg : Config) (rg : List (List (Option String))) : GameState where
  cfg := cfg
  credits := cfg.INITIAL_CREDITS
  population := cfg.INITIAL_POPULATION
  power_capacity := cfg.INITIAL_POWER
  power_demand := 0
  resources := cfg.RESOURCE_TYPES.map (fun r => (r, 0))
  buildings := []
  grid := freshGrid cfg
  game_time := 0
  city_rank_index := 0
  city_rank := ((cfg.CITY_RANKS.get? 0).getD ("", 0)).1
  city_value := 0
  unlocked_technologies := []
  current_alerts := []
  time_multiplier := cfg.DEFAULT_TIME_MULTIPLIER
  resource_grid := rg
  selected_building_instance := none

/-- `GameState.has_sufficient_power`. -/
def hasSufficientPower (s : GameState) : Bool :=
  s.power_capacity ≥ s.power_demand

/-- The loop body of `GameState.update_power_balance`: accumulate capacity
and demand over operational buildings (`hasattr` is always true: `__init__`
sets `power_gen`/`power_draw` unconditionally). -/
def powerTotals : List Building → Nat × Nat → Nat × Nat
  | [], t => t
  | b :: rest, (cap, dem) =>
    let cap := if b.is_operational ∧ b.power_gen > 0 then cap + b.power_gen else cap
    let dem := if b.is_operational ∧ b.power_draw > 0 then dem + b.power_draw else dem
    powerTotals rest (cap, dem)

/-- `GameState.update_power_balance` (the `!=` guard before the assignments
only skips writing back unchanged values, so it is the identity on the
result). -/
def updatePowerBalance (s : GameState) : GameState :=
  let t := powerTotals s.buildings (s.cfg.INITIAL_POWER, 0)
  { s with power_capacity := t.1, power_demand := t.2 }

/-- `GameState.check_for_rank_up`. -/
def checkForRankUp (s : GameState) : GameState :=
  if s.city_rank_index ≥ s.cfg.CITY_RANKS.length - 1 then s
  else
    let next := (s.cfg.CITY_RANKS.get? (s.city_rank_index + 1)).getD ("", 0)
    if s.city_value ≥ next.2 then
      { s with city_rank_index := s.city_rank_index + 1,
               city_rank := next.1,
               current_alerts := s.current_alerts ++ ["Promoted to " ++ next.1 ++ "!"] }
    else s

/-- The `for i, rank_info in enumerate(...)` search in
`GameState.is_building_unlocked`: index of the first rank with the given
name, `-1` when absent; `k` is the number of entries already scanned. -/
def findRankIndex : List (String × Int) → String → Nat → Int
  | [], _, _ => -1
  | r :: rest, name, k => if r.1 = name then (k : Int) else findRankIndex rest name (k + 1)

/-- `GameState.is_building_unlocked`. -/
def isBuildingUnlocked (s : GameState) (key : String) : Bool :=
  match s.cfg.BUILDING_TYPES.lookup key with
  | none => false
  | some d =>
    let c := d.unlock_conditions
    let popBlocked : Bool := match c.pop with
      | some p => decide (s.population < p)
      | none => false
    let rankBlocked : Bool := match c.rank with
      | some rname =>
        let ri := findRankIndex s.cfg.CITY_RANKS rname 0
        decide (ri = -1 ∨ (s.city_rank_index : Int) < ri)
      | none => false
    let techBlocked : Bool := match c.tech with
      | some t => decide (¬ t ∈ s.unlocked_technologies)
      | none => false
    if c.pop = none ∧ c.rank = none ∧ c.tech = none then true
    else if popBlocked then false
    else if rankBlocked then false
    else if techBlocked then false
    else true

/-! ### `Building.update` (`src/buildings.py`, lines 57-172), split into its
sequential sections.  `buildingUpdate` glues them in source order. -/

/-- Rules 1-3 of `Building.update`: recompute `is_operational`. -/
def statusStep (b : Building) (s : GameState) : Building :=
  if b.power_gen > 0 then { b with is_operational := true }
  else if b.power_draw > 0 then
    (if hasSufficientPower s then { b with is_operational := true }
     else { b with is_operational := false })
  else if b.power_draw = 0 ∧ b.power_gen = 0 then { b with is_operational := true }
  else b

/-- Income generation: once per real-time second (`game_time % FPS == 0`),
credit `income * time_multiplier`.  (`FPS = 60 > 0` in the shipped config;
a zero `FPS` would make Python raise here, the total `%` is noted in the
header.) -/
def incomeStep (b : Building) (s : GameState) : GameState :=
  if b.income > 0 ∧ s.game_time % s.cfg.FPS = 0 then
    { s with credits := s.credits + b.income * (s.time_multiplier : Int) }
  else s

/-- Extractor production (`RESOURCE_EXTRACTOR` / `PUMPJACK` / `MINER_IRON` /
`MINER_COPPER` branch).  `if self.placed_on_node_type:` is Python truthiness
on a node-type string (catalog strings are non-empty), i.e. a `some` check. -/
def extractStep (b : Building) (s : GameState) : GameState :=
  let can_produce : Bool := match b.placed_on_node_type with
    | some nt => decide (getNode s.resource_grid b.grid_x b.grid_y = some nt)
    | none => true
  if can_produce ∧ b.resource_type ≠ none ∧ s.game_time % s.cfg.FPS = 0 then
    match b.resource_type with
    | some rt =>
      match s.resources.lookup rt with
      | some cur =>
        { s with resources := resSet s.resources rt (cur + b.output_rate * (s.time_multiplier : Int)) }
      | none => s
    | none => s
  else s

/-- The `for _ in range(num_cycles_completed)` loop of the converter branch:
per cycle, if the stockpile holds the input, debit it and credit the output;
otherwise `break`. -/
def runCycles (n : Nat) (inp : String) (amt : Int) (out : String) (rate : Int)
    (rs : List (String × Int)) : List (String × Int) :=
  match n with
  | 0 => rs
  | n + 1 =>
    if resGet rs inp ≥ amt then
      let rs1 := resSet rs inp (resGet rs inp - amt)
      let rs2 := resSet rs1 out (resGet rs1 out + rate)
      runCycles n inp amt out rate rs2
    else rs

/-- Converter branch (`FUEL_REFINERY` / `FACTORY_PARTS`).  The final `if`
is the source's stall-clamp block, kept verbatim even though its guard
`num == 0 ∧ timer2 ≥ required` cannot fire (`num = timer / required ≥ 1`
whenever the block is reached, see claim C4).  `required` is
`cycle_time_seconds * FPS`, positive in the shipped catalog, so the total
`/` and `%` agree with Python. -/
def convertStep (b : Building) (s : GameState) : Building × GameState :=
  if b.input_resource ≠ none ∧ b.output_resource ≠ none ∧
     b.input_amount > 0 ∧ b.output_rate > 0 then
    match b.input_resource, b.output_resource with
    | some inp, some out =>
      let timer := b.production_timer_ticks + 1 * s.time_multiplier
      let required := b.cycle_time_seconds * s.cfg.FPS
      if timer ≥ required then
        let num := timer / required
        let rs := runCycles num inp b.input_amount out b.output_rate s.resources
        let timer2 := timer % required
        let timer3 :=
          if num = 0 ∧ timer2 ≥ required ∧ resGet rs inp < b.input_amount then required
          else timer2
        ({ b with production_timer_ticks := timer3 }, { s with resources := rs })
      else ({ b with production_timer_ticks := timer }, s)
    | _, _ => (b, s)
  else (b, s)

/-- `Building.update(game_state)`: status rules, early return when not
operational, income, then the `type_key` dispatch chain (`HAB_DOME` and
`SOLAR_PANEL_ARRAY` are `pass`; types outside the chain, including the
`MINE` key that `__init__` mentions but `update` does not, do nothing). -/
def buildingUpdate (b : Building) (s : GameState) : Building × GameState :=
  let b2 := statusStep b s
  if b2.is_operational = false then (b2, s)
  else
    let s2 := incomeStep b2 s
    if b2.type_key = "HAB_DOME" then (b2, s2)
    else if b2.type_key = "SOLAR_PANEL_ARRAY" then (b2, s2)
    else if b2.type_key = "RESOURCE_EXTRACTOR" ∨ b2.type_key = "PUMPJACK" ∨
            b2.type_key = "MINER_IRON" ∨ b2.type_key = "MINER_COPPER" then
      (b2, extractStep b2 s2)
    else if b2.type_key = "FUEL_REFINERY" ∨ b2.type_key = "FACTORY_PARTS" then
      convertStep b2 s2
    else (b2, s2)

/-- `for building in self.buildings: building.update(self)` (the loop in
`GameState.tick`): each object is updated in place, so the state each
update sees includes the effects of the previous ones, and the list ends up
holding the updated objects. -/
def updateBuildingsFold : List Building → GameState → List Building × GameState
  | [], s => ([], s)
  | b :: rest, s =>
    let p := buildingUpdate b s
    let q := updateBuildingsFold rest p.2
    (p.1 :: q.1, q.2)

/-- The loop in `GameState.update_resources_and_population`: same as
`updateBuildingsFold` but also accumulates `current_population_capacity`
over operational `HAB_DOME`s. -/
def updateBuildingsCap : List Building → GameState → Nat → List Building × GameState × Nat
  | [], s, cap => ([], s, cap)
  | b :: rest, s, cap =>
    let p := buildingUpdate b s
    let cap2 := if p.1.is_operational ∧ p.1.type_key = "HAB_DOME" then cap + p.1.capacity else cap
    let q := updateBuildingsCap rest p.2 cap2
    (p.1 :: q.1, q.2.1, q.2.2)

/-- `GameState.update_resources_and_population`.  The interval computations
`max(1, (FPS * 5) // time_multiplier)` and `max(1, (FPS * 2) //
time_multiplier)` divide by the raw multiplier (the `max` floors the
quotient, not the divisor), so with `time_multiplier = 0` Python raises
`ZeroDivisionError`: modelled as `none`.  `max(0, population - 1)` is Nat
subtraction. -/
def updateResourcesAndPopulation (s : GameState) : Option GameState :=
  let t := updateBuildingsCap s.buildings s 0
  let s1 : GameState := { t.2.1 with buildings := t.1 }
  let cap := t.2.2
  if s1.time_multiplier = 0 then none
  else
    let growth := max 1 (s1.cfg.FPS * 5 / s1.time_multiplier)
    let decline := max 1 (s1.cfg.FPS * 2 / s1.time_multiplier)
    if s1.population < cap then
      (if s1.game_time % growth = 0 then
        some { s1 with population := min (s1.population + 1) cap }
       else some s1)
    else if s1.population > cap then
      (if s1.game_time % decline = 0 then
        some { s1 with population := s1.population - 1 }
       else some s1)
    else some s1

/-- `GameState.tick`.  `none` models the uncaught `ZeroDivisionError` that
`update_resources_and_population` raises when `time_multiplier = 0` (the
final once-per-second logging block is `pass`). -/
def tick (s : GameState) : Option GameState :=
  let s0 := { s with game_time := s.game_time + 1 }
  let t := updateBuildingsFold s0.buildings s0
  let s1 := updatePowerBalance { t.2 with buildings := t.1 }
  match updateResourcesAndPopulation s1 with
  | none => none
  | some s2 => some (checkForRankUp s2)

/-! ### Placement and removal (`game_state.py` lines 76-137, caller gating in
`main.py` lines 218-256) -/

/-- `GameState.add_building(building_object, grid_x, grid_y)`: append the
object, mark every footprint tile, debit the cost, add it to `city_value`,
recompute power, re-check rank.  The wrong-node-type case only prints a
warning (the alert append is commented out), and the method checks nothing
else — no funds, unlock, bounds or occupancy test (see claim C10). -/
def addBuilding (s : GameState) (b : Building) (gx gy : Nat) : GameState :=
  let s1 := { s with buildings := s.buildings ++ [b] }
  let s2 := { s1 with grid := markCells s1.grid (footprintCells gx gy b.width_tiles b.height_tiles) (some b) }
  let s3 := { s2 with credits := s2.credits - b.cost, city_value := s2.city_value + b.cost }
  checkForRankUp (updatePowerBalance s3)

/-- `self.buildings.remove(building_to_remove)`: drop the first occurrence
(Python compares these objects by identity, i.e. by `id` here). -/
def removeFirst (b : Building) : List Building → List Building
  | [] => []
  | c :: rest => if c = b then rest else c :: removeFirst b rest

/-- The body `remove_building` runs once it has found a building at the
clicked cell: clear a `width × height` rectangle that starts at the
*clicked* cell (not at the building's own origin — see claim C6), each
write bounds-guarded; drop the first occurrence from the list if present
(else only print a warning); subtract the cost from `city_value` floored
at 0 (the refund line is commented out); recompute power; re-check rank;
deselect the building if it was selected. -/
def removeFound (s : GameState) (gx gy : Nat) (b : Building) : GameState :=
  let s1 := { s with grid := markCells s.grid (footprintCells gx gy b.width_tiles b.height_tiles) none }
  let s2 := { s1 with buildings := if b ∈ s1.buildings then removeFirst b s1.buildings else s1.buildings }
  let s3 := { s2 with city_value := if s2.city_value - b.cost < 0 then 0 else s2.city_value - b.cost }
  let s4 := checkForRankUp (updatePowerBalance s3)
  if s4.selected_building_instance = some b then
    { s4 with selected_building_instance := none }
  else s4

/-- `GameState.remove_building(grid_x, grid_y)`: a no-op (print only) on an
empty cell, `removeFound` on whatever building the cell references. -/
def removeBuilding (s : GameState) (gx gy : Nat) : GameState :=
  match getCell s.grid gx gy with
  | none => s
  | some b => removeFound s gx gy b

/-- The placement gating in `main.py`'s click handler (lines 218-251):
catalog lookup, unlock check, funds check, bounds check
(`0 <= x < W - (w-1)` etc.), then footprint-occupancy check.  Exactly when
this is true does the handler construct a `Building` and call
`add_building`. -/
def canPlace (s : GameState) (key : String) (gx gy : Nat) : Bool :=
  match s.cfg.BUILDING_TYPES.lookup key with
  | none => false
  | some d =>
    isBuildingUnlocked s key &&
    decide (s.credits ≥ d.cost) &&
    decide (gx < s.cfg.GRID_WIDTH - (d.width_tiles - 1)) &&
    decide (gy < s.cfg.GRID_HEIGHT - (d.height_tiles - 1)) &&
    (footprintCells gx gy d.width_tiles d.height_tiles).all
      (fun p => getCell s.grid p.1 p.2 = none)

/-! ### Snapshots (`get_save_data` / `load_from_data`) -/

/-- The flat record produced by `GameState.get_save_data` (JSON-serialized by
`main.save_game`; `unlocked_technologies` round-trips through
`list(set(...))`, modelled as the list itself). -/
structure SaveData where
  credits : Int
  population : Nat
  power_capacity : Nat
  power_demand : Nat
  resources : List (String × Int)
  buildings_data : List (String × Nat × Nat)
  grid_width : Nat
  grid_height : Nat
  game_time : Nat
  city_rank_index : Nat
  city_value : Int
  unlocked_technologies : List String
  game_version : String
  resource_grid : List (List (Option String))
  deriving DecidableEq, Repr

/-- `GameState.get_save_data`. -/
def getSaveData (s : GameState) : SaveData where
  credits := s.credits
  population := s.population
  power_capacity := s.power_capacity
  power_demand := s.power_demand
  resources := s.resources
  buildings_data := s.buildings.map (fun b => (b.type_key, b.grid_x, b.grid_y))
  grid_width := s.cfg.GRID_WIDTH
  grid_height := s.cfg.GRID_HEIGHT
  game_time := s.game_time
  city_rank_index := s.city_rank_index
  city_value := s.city_value
  unlocked_technologies := s.unlocked_technologies
  game_version := "0.0.1 Alpha"
  resource_grid := s.resource_grid

/-- The reconstruction loop of `load_from_data`: for each saved record build
a fresh `Building` (`KeyError` on an unknown type key aborts the whole load
via the surrounding `except`, hence `none`), append it and mark its
footprint (each write bounds-guarded in the source).  `i` numbers the fresh
objects (object identity). -/
def rebuildBuildings (data : List (String × Nat × Nat)) (s : GameState) (i : Nat) :
    Option GameState :=
  match data with
  | [] => some s
  | (key, gx, gy) :: rest =>
    match mkBuilding i key s.cfg.BUILDING_TYPES gx gy with
    | none => none
    | some nb =>
      rebuildBuildings rest
        { s with buildings := s.buildings ++ [nb],
                 grid := markCells s.grid (footprintCells gx gy nb.width_tiles nb.height_tiles) (some nb) }
        (i + 1)

/-- The derived-state recompute pass at the end of `load_from_data`
(lines 397-405): `update_power_balance`, then `building.update(self)` over
every reconstructed building, then `update_resources_and_population`
(which can raise if `time_multiplier = 0`), then `check_for_rank_up`. -/
def postLoadRecompute (s5 : GameState) : Option GameState :=
  let s6 := updatePowerBalance s5
  let t := updateBuildingsFold s6.buildings s6
  let s7 := { t.2 with buildings := t.1 }
  match updateResourcesAndPopulation s7 with
  | none => none
  | some s8 => some (checkForRankUp s8)

/-- `GameState.load_from_data(data, building_constructor, building_configs)`.
`none` models every path on which the `try` block raises and the method
returns `False`: an out-of-range `city_rank_index` (`CITY_RANKS[...]`
raises `IndexError`), an unknown building type key (`KeyError`), or
`time_multiplier = 0` (`ZeroDivisionError` in the final
`update_resources_and_population`).  The grid-dimension check only prints a
warning.  `if loaded_resource_grid:` is Python truthiness: an empty list
keeps the generated grid. -/
def loadFromData (s : GameState) (data : SaveData) : Option GameState :=
  let s1 := { s with credits := data.credits, population := data.population,
                     resources := data.resources, game_time := data.game_time,
                     city_rank_index := data.city_rank_index }
  match s1.cfg.CITY_RANKS.get? data.city_rank_index with
  | none => none
  | some r =>
    let s2 := { s1 with city_rank := r.1, city_value := data.city_value,
                        unlocked_technologies := data.unlocked_technologies }
    let s3 := if data.resource_grid.isEmpty then s2
              else { s2 with resource_grid := data.resource_grid }
    let s4 := { s3 with buildings := [], grid := freshGrid s3.cfg }
    match rebuildBuildings data.buildings_data s4 0 with
    | none => none
    | some s5 => postLoadRecompute s5

/-! ### Spec-side definitions and well-formedness predicates (used only to
*state* properties; the operational definitions above are the code) -/

/-- The placement data of a structure: type id and origin. -/
def placementOf (b : Building) : String × Nat × Nat :=
  (b.type_key, b.grid_x, b.grid_y)

/-- Spec wording (§4.5 / claim C9): index of the required rank name in the
rank ladder, `none` when the name is unknown. -/
def specRankIndex : List (String × Int) → String → Option Nat
  | [], _ => none
  | r :: rest, name =>
    if r.1 = name then some 0
    else (specRankIndex rest name).map (fun i => i + 1)

/-- Claim C9's characterisation of `is_building_unlocked`, written from the
spec's words: empty conditions, or every specified condition holds
(population threshold met; rank index at least the index of the required
rank name, an unknown name being unsatisfiable; required tech unlocked). -/
def unlockConditionsSpec (s : GameState) (c : UnlockConditions) : Prop :=
  (c.pop = none ∧ c.rank = none ∧ c.tech = none) ∨
  ((∀ p, c.pop = some p → p ≤ s.population) ∧
   (∀ rname, c.rank = some rname →
      ∃ ri, specRankIndex s.cfg.CITY_RANKS rname = some ri ∧ ri ≤ s.city_rank_index) ∧
   (∀ t, c.tech = some t → t ∈ s.unlocked_technologies))

/-- `(x, y)` lies in the rectangular footprint of `b`. -/
def inFootprint (b : Building) (x y : Nat) : Prop :=
  b.grid_x ≤ x ∧ x < b.grid_x + b.width_tiles ∧
  b.grid_y ≤ y ∧ y < b.grid_y + b.height_tiles

/-- The grid is a well-shaped `H × W` table. -/
def rectangularB (g : Grid) (w h : Nat) : Bool :=
  g.length == h && g.all (fun row => row.length == w)

/-- Claim C6's grid/list agreement (spec §3): an in-bounds cell references a
structure iff that structure is owned and the cell is in its footprint, and
every footprint cell of an owned structure references it. -/
structure GridMatches (s : GameState) : Prop where
  owner : ∀ x y b, x < s.cfg.GRID_WIDTH → y < s.cfg.GRID_HEIGHT →
    getCell s.grid x y = some b → b ∈ s.buildings ∧ inFootprint b x y
  covers : ∀ b, b ∈ s.buildings → ∀ x y, inFootprint b x y → getCell s.grid x y = some b

/-- States reachable by the engine: a well-shaped grid, pairwise-distinct
building objects (Python object identity), and the C6 agreement. -/
structure WellFormedState (s : GameState) : Prop where
  rect : rectangularB s.grid s.cfg.GRID_WIDTH s.cfg.GRID_HEIGHT = true
  ids : (s.buildings.map (fun b => b.id)).Nodup
  agrees : GridMatches s

/-- The stored power balance equals the one recomputed from the structure
list — true of every state the engine produces, since `__init__` starts at
(base, 0) over an empty list and every mutation ends in
`update_power_balance`. -/
def powerSettled (s : GameState) : Prop :=
  updatePowerBalance s = s

/-! ### Concrete states used by counterexamples and witnesses -/

/-- An all-empty resource-node layout (one possible outcome of
`_generate_resource_nodes`). -/
def rgEmpty : List (List (Option String)) :=
  List.replicate 50 (List.replicate 50 none)

/-- The freshly initialised colony under the shipped configuration. -/
def gs0 : GameState := initState defaultConfig rgEmpty

/-- Fallback object for `Option.getD` on catalog lookups that are known to
succeed. -/
def dummyBuilding : Building where
  id := 0
  type_key := ""
  cost := 0
  power_draw := 0
  power_gen := 0
  income := 0
  grid_x := 0
  grid_y := 0
  width_tiles := 1
  height_tiles := 1
  is_operational := true
  capacity := 0
  output_rate := 0
  resource_type := none
  placed_on_node_type := none
  input_resource := none
  input_amount := 0
  output_resource := none
  cycle_time_seconds := 5
  production_timer_ticks := 0

/-- A `Building("COMMAND_CENTER", ..., 0, 0)` instance. -/
def ccBuilding : Building :=
  (mkBuilding 1 "COMMAND_CENTER" defaultConfig.BUILDING_TYPES 0 0).getD dummyBuilding

/-- A `Building("HAB_DOME", ..., 0, 0)` instance. -/
def habBuilding : Building :=
  (mkBuilding 1 "HAB_DOME" defaultConfig.BUILDING_TYPES 0 0).getD dummyBuilding

/-- A `Building("SPACEPORT", ..., 0, 0)` instance (3×3 footprint). -/
def spBuilding : Building :=
  (mkBuilding 1 "SPACEPORT" defaultConfig.BUILDING_TYPES 0 0).getD dummyBuilding

/-- A second `Building("SPACEPORT", ..., 10, 10)` instance. -/
def spBuilding2 : Building :=
  (mkBuilding 2 "SPACEPORT" defaultConfig.BUILDING_TYPES 10 10).getD dummyBuilding

/-- A `Building("FUEL_REFINERY", ..., 0, 0)` whose cycle counter is one
multiplier-step short of the 600-tick threshold. -/
def refineryDue : Building :=
  { (mkBuilding 1 "FUEL_REFINERY" defaultConfig.BUILDING_TYPES 0 0).getD dummyBuilding with
    production_timer_ticks := 599 }

/-! ### Helper lemmas: grids -/

lemma rectangularB_iff {g : Grid} {w h : Nat} :
    rectangularB g w h = true ↔ g.length = h ∧ ∀ row ∈ g, row.length = w := by
  simp [rectangularB, List.all_eq_true]

lemma length_setCell (g : Grid) (x y : Nat) (v : Option Building) :
    (setCell g x y v).length = g.length :=
  List.length_set g y _

lemma rect_setCell {g : Grid} {w h : Nat} (hr : rectangularB g w h = true)
    (x y : Nat) (v : Option Building) : rectangularB (setCell g x y v) w h = true := by
  rw [rectangularB_iff] at hr ⊢
  refine ⟨(length_setCell g x y v).trans hr.1, ?_⟩
  intro row hrow
  by_cases hy : y < g.length
  · rcases List.mem_or_eq_of_mem_set hrow with hmem | hrow
    · exact hr.2 row hmem
    · subst hrow
      rw [List.length_set]
      have hmem : g[y]?.getD [] ∈ g := by
        rw [List.getElem?_eq_getElem hy]
        exact List.getElem_mem hy
      exact hr.2 _ hmem
  · rw [setCell, List.set_eq_of_length_le (Nat.le_of_not_lt hy)] at hrow
    exact hr.2 row hrow

lemma getCell_setCell_self {g : Grid} {w h : Nat} (hr : rectangularB g w h = true)
    {x y : Nat} (hx : x < w) (hy : y < h) (v : Option Building) :
    getCell (setCell g x y v) x y = v := by
  rw [rectangularB_iff] at hr
  have hylen : y < g.length := hr.1 ▸ hy
  have hrow : g[y]?.getD [] ∈ g := by
    rw [List.getElem?_eq_getElem hylen]
    exact List.getElem_mem hylen
  have hxlen : x < (g[y]?.getD []).length := (hr.2 _ hrow) ▸ hx
  rw [getCell, setCell, List.getElem?_set_eq_of_lt _ (by simpa using hylen)]
  simp [List.getElem?_set_eq_of_lt _ hxlen]

lemma getCell_setCell_of_ne {g : Grid} {x y x' y' : Nat} (hne : x ≠ x' ∨ y ≠ y')
    (v : Option Building) : getCell (setCell g x y v) x' y' = getCell g x' y' := by
  by_cases hy : y = y'
  · subst hy
    rcases hne with hx | hy
    · by_cases hylen : y < g.length
      · rw [getCell, setCell, List.getElem?_set_eq_of_lt _ (by simpa using hylen)]
        rw [getCell, List.getElem?_eq_getElem hylen]
        simp only [Option.getD_some]
        rw [List.getElem?_set_ne hx]
      · rw [setCell, List.set_eq_of_length_le (Nat.le_of_not_lt hylen)]
    · exact absurd rfl hy
  · rw [getCell, setCell, List.getElem?_set_ne hy, getCell]

lemma rect_markCells {g : Grid} {w h : Nat} (hr : rectangularB g w h = true)
    (cells : List (Nat × Nat)) (v : Option Building) :
    rectangularB (markCells g cells v) w h = true := by
  induction cells generalizing g with
  | nil => exact hr
  | cons p rest ih => exact ih (rect_setCell hr p.1 p.2 v)

lemma getCell_markCells {g : Grid} {w h : Nat} (hr : rectangularB g w h = true)
    {cells : List (Nat × Nat)} (hc : ∀ p ∈ cells, p.1 < w ∧ p.2 < h)
    (v : Option Building) (x y : Nat) :
    getCell (markCells g cells v) x y = if (x, y) ∈ cells then v else getCell g x y := by
  induction cells generalizing g with
  | nil => simp [markCells]
  | cons p rest ih =>
    rw [markCells,
        ih (rect_setCell hr p.1 p.2 v) (fun q hq => hc q (List.mem_cons_of_mem _ hq))]
    by_cases hmem : (x, y) ∈ rest
    · simp [hmem, List.mem_cons]
    · simp only [hmem, if_false]
      by_cases hp : (x, y) = p
      · have hx : p.1 < w := (hc p (List.mem_cons_self p rest)).1
        have hy : p.2 < h := (hc p (List.mem_cons_self p rest)).2
        rcases p with ⟨a, b⟩
        rcases Prod.mk.injEq .. ▸ hp with ⟨hxa, hyb⟩
        subst hxa; subst hyb
        rw [getCell_setCell_self hr hx hy v]
        simp [List.mem_cons]
      · have hne : p.1 ≠ x ∨ p.2 ≠ y := by
          rcases p with ⟨a, b⟩
          by_contra hcon
          push_neg at hcon
          exact hp (by simp [hcon.1.symm, hcon.2.symm])
        rw [getCell_setCell_of_ne hne v]
        simp [List.mem_cons, hp, hmem]

lemma mem_footprintCells {gx gy w h : Nat} {p : Nat × Nat} :
    p ∈ footprintCells gx gy w h ↔
      gx ≤ p.1 ∧ p.1 < gx + w ∧ gy ≤ p.2 ∧ p.2 < gy + h := by
  rcases p with ⟨a, b⟩
  simp only [footprintCells, List.mem_flatMap, List.mem_map, List.mem_range, Prod.mk.injEq]
  constructor
  · rintro ⟨r, hr, c, hc, h1, h2⟩
    omega
  · intro hab
    exact ⟨b - gy, by omega, a - gx, by omega, by omega, by omega⟩

lemma grid_ext {g1 g2 : Grid} {w h : Nat} (h1 : rectangularB g1 w h = true)
    (h2 : rectangularB g2 w h = true)
    (hpt : ∀ x y, x < w → y < h → getCell g1 x y = getCell g2 x y) : g1 = g2 := by
  rw [rectangularB_iff] at h1 h2
  apply List.ext
  intro y
  by_cases hy : y < h
  · have hy1 : y < g1.length := h1.1 ▸ hy
    have hy2 : y < g2.length := h2.1 ▸ hy
    rw [List.get?_eq_getElem?, List.get?_eq_getElem?,
        List.getElem?_eq_getElem hy1, List.getElem?_eq_getElem hy2]
    have hrowlen1 : g1[y].length = w := h1.2 _ (List.getElem_mem hy1)
    have hrowlen2 : g2[y].length = w := h2.2 _ (List.getElem_mem hy2)
    congr 1
    apply List.ext
    intro x
    by_cases hx : x < w
    · have hcells := hpt x y hx hy
      rw [getCell, getCell, List.getElem?_eq_getElem hy1, List.getElem?_eq_getElem hy2] at hcells
      simp only [Option.getD_some] at hcells
      have hx1 : x < g1[y].length := hrowlen1 ▸ hx
      have hx2 : x < g2[y].length := hrowlen2 ▸ hx
      rw [List.getElem?_eq_getElem hx1, List.getElem?_eq_getElem hx2] at hcells
      simp only [Option.getD_some] at hcells
      rw [List.get?_eq_getElem?, List.get?_eq_getElem?,
          List.getElem?_eq_getElem hx1, List.getElem?_eq_getElem hx2]
      exact congrArg some hcells
    · rw [List.get?_eq_getElem?, List.get?_eq_getElem?,
          List.getElem?_eq_none (by omega), List.getElem?_eq_none (by omega)]
  · rw [List.get?_eq_getElem?, List.get?_eq_getElem?,
        List.getElem?_eq_none (by omega), List.getElem?_eq_none (by omega)]

/-! ### Helper lemmas: which fields each engine step can touch -/

lemma statusStep_shape (b : Building) (s : GameState) :
    ∃ op, statusStep b s = { b with is_operational := op } := by
  unfold statusStep
  repeat' split
  all_goals exact ⟨_, rfl⟩

lemma incomeStep_shape (b : Building) (s : GameState) :
    ∃ cr, incomeStep b s = { s with credits := cr } := by
  unfold incomeStep
  split
  all_goals exact ⟨_, rfl⟩

lemma extractStep_shape (b : Building) (s : GameState) :
    ∃ rs, extractStep b s = { s with resources := rs } := by
  simp only [extractStep]
  repeat' split
  all_goals exact ⟨_, rfl⟩

lemma convertStep_shape (b : Building) (s : GameState) :
    ∃ tm rs, convertStep b s =
      ({ b with production_timer_ticks := tm }, { s with resources := rs }) := by
  simp only [convertStep]
  repeat' split
  all_goals exact ⟨_, _, rfl⟩

lemma buildingUpdate_shape (b : Building) (s : GameState) :
    ∃ op tm cr rs, buildingUpdate b s =
      ({ b with is_operational := op, production_timer_ticks := tm },
       { s with credits := cr, resources := rs }) := by
  obtain ⟨op, hst⟩ := statusStep_shape b s
  obtain ⟨cr, hin⟩ := incomeStep_shape { b with is_operational := op } s
  simp only [buildingUpdate]
  rw [hst, hin]
  split
  · exact ⟨_, _, _, _, rfl⟩
  split
  · exact ⟨_, _, _, _, rfl⟩
  split
  · exact ⟨_, _, _, _, rfl⟩
  split
  · obtain ⟨rs, hex⟩ :=
      extractStep_shape { b with is_operational := op } { s with credits := cr }
    rw [hex]
    exact ⟨_, _, _, _, rfl⟩
  split
  · obtain ⟨tm, rs, hcv⟩ :=
      convertStep_shape { b with is_operational := op } { s with credits := cr }
    rw [hcv]
    exact ⟨_, _, _, _, rfl⟩
  · exact ⟨_, _, _, _, rfl⟩

lemma placementOf_mk (b : Building) (op : Bool) (tm : Nat) :
    placementOf { b with is_operational := op, production_timer_ticks := tm } = placementOf b := rfl

lemma updateBuildingsFold_shape (bs : List Building) (s : GameState) :
    ∃ cr rs, (updateBuildingsFold bs s).2 = { s with credits := cr, resources := rs } ∧
      ((updateBuildingsFold bs s).1).map placementOf = bs.map placementOf := by
  induction bs generalizing s with
  | nil => exact ⟨s.credits, s.resources, rfl, rfl⟩
  | cons b rest ih =>
    obtain ⟨op, tm, cr, rs, hbu⟩ := buildingUpdate_shape b s
    obtain ⟨cr2, rs2, hst, hmap⟩ := ih { s with credits := cr, resources := rs }
    simp only [updateBuildingsFold]
    rw [hbu]
    refine ⟨cr2, rs2, hst, ?_⟩
    simp only [List.map_cons, placementOf_mk, hmap]

lemma updateBuildingsCap_shape (bs : List Building) (s : GameState) (cap : Nat) :
    ∃ cr rs, (updateBuildingsCap bs s cap).2.1 = { s with credits := cr, resources := rs } ∧
      ((updateBuildingsCap bs s cap).1).map placementOf = bs.map placementOf := by
  induction bs generalizing s cap with
  | nil => exact ⟨s.credits, s.resources, rfl, rfl⟩
  | cons b rest ih =>
    obtain ⟨op, tm, cr, rs, hbu⟩ := buildingUpdate_shape b s
    simp only [updateBuildingsCap]
    rw [hbu]
    obtain ⟨cr2, rs2, hst, hmap⟩ :=
      ih { s with credits := cr, resources := rs }
        (if ({ b with is_operational := op, production_timer_ticks := tm } : Building).is_operational ∧
            ({ b with is_operational := op, production_timer_ticks := tm } : Building).type_key = "HAB_DOME"
         then cap + ({ b with is_operational := op, production_timer_ticks := tm } : Building).capacity
         else cap)
    refine ⟨cr2, rs2, hst, ?_⟩
    simp only [List.map_cons, placementOf_mk, hmap]

lemma updatePowerBalance_shape (s : GameState) :
    ∃ pc pd, updatePowerBalance s = { s with power_capacity := pc, power_demand := pd } :=
  ⟨_, _, rfl⟩

lemma checkForRankUp_shape (s : GameState) :
    ∃ idx nm al, checkForRankUp s =
      { s with city_rank_index := idx, city_rank := nm, current_alerts := al } := by
  simp only [checkForRankUp]
  repeat' split
  all_goals exact ⟨_, _, _, rfl⟩

lemma updateResourcesAndPopulation_of_paused (s : GameState)
    (h : s.time_multiplier = 0) : updateResourcesAndPopulation s = none := by
  obtain ⟨cr, rs, hst, _⟩ := updateBuildingsCap_shape s.buildings s 0
  simp only [updateResourcesAndPopulation]
  rw [hst]
  simp [h]

lemma updateResourcesAndPopulation_shape (s : GameState) (h : ¬ s.time_multiplier = 0) :
    ∃ cr rs bs2 pop, updateResourcesAndPopulation s =
        some { s with credits := cr, resources := rs, buildings := bs2, population := pop } ∧
      bs2.map placementOf = s.buildings.map placementOf := by
  obtain ⟨cr, rs, hst, hmap⟩ := updateBuildingsCap_shape s.buildings s 0
  simp only [updateResourcesAndPopulation]
  rw [hst]
  simp only [h, if_false]
  repeat' split
  all_goals exact ⟨_, _, _, _, rfl, hmap⟩

lemma mem_removeFirst_of_ne {c b : Building} {l : List Building} (hne : c ≠ b) :
    c ∈ removeFirst b l ↔ c ∈ l := by
  induction l with
  | nil => simp [removeFirst]
  | cons a rest ih =>
    simp only [removeFirst]
    split
    · next heq =>
      subst heq
      simp [List.mem_cons, hne]
    · simp [List.mem_cons, ih]

lemma removeFirst_sublist (b : Building) (l : List Building) :
    (removeFirst b l).Sublist l := by
  induction l with
  | nil => simp [removeFirst]
  | cons a rest ih =>
    simp only [removeFirst]
    split
    · exact List.sublist_cons_self a rest
    · exact List.Sublist.cons₂ a ih

lemma not_mem_removeFirst {b : Building} {l : List Building} (hnd : l.Nodup) :
    b ∉ removeFirst b l := by
  induction l with
  | nil => simp [removeFirst]
  | cons a rest ih =>
    rw [List.nodup_cons] at hnd
    simp only [removeFirst]
    split
    · next heq => subst heq; exact hnd.1
    · next hne =>
      intro hmem
      rcases List.mem_cons.mp hmem with h | h
      · exact hne h.symm
      · exact ih hnd.2 h

lemma removeFirst_append_of_not_mem {b : Building} {l : List Building} (h : b ∉ l) :
    removeFirst b (l ++ [b]) = l := by
  induction l with
  | nil => simp [removeFirst]
  | cons a rest ih =>
    rw [List.mem_cons, not_or] at h
    simp only [List.cons_append, removeFirst]
    rw [if_neg (fun hc => h.1 hc.symm)]
    show a :: removeFirst b (rest ++ [b]) = a :: rest
    rw [ih h.2]

lemma powerSettled_totals {s : GameState} (h : powerSettled s) :
    powerTotals s.buildings (s.cfg.INITIAL_POWER, 0) = (s.power_capacity, s.power_demand) := by
  have h1 := congrArg GameState.power_capacity h
  have h2 := congrArg GameState.power_demand h
  exact Prod.ext h1 h2

/-! ## Claim C1 -/

/-- **C1** (code_bug): with `time_multiplier = 0`, `tick()` never completes:
`update_resources_and_population` divides `FPS * 5` (and `FPS * 2`) by the
raw multiplier before any population branch runs, so Python raises
`ZeroDivisionError` — the `max(1, ...)` floors the quotient, not the
divisor, contradicting the code's own comment ("Ensure the divisor is at
least 1 to avoid division by zero") and the spec.  In the model the raised
exception is the `none` result. -/
theorem c1_tick_paused_raises_div_by_zero (s : GameState)
    (h : s.time_multiplier = 0) : tick s = none := by
  obtain ⟨cr, rs, hfold, _⟩ :=
    updateBuildingsFold_shape s.buildings { s with game_time := s.game_time + 1 }
  have hmult : (updatePowerBalance
      { (updateBuildingsFold s.buildings { s with game_time := s.game_time + 1 }).2 with
        buildings := (updateBuildingsFold s.buildings { s with game_time := s.game_time + 1 }).1 }).time_multiplier = 0 := by
    rw [show (updatePowerBalance
      { (updateBuildingsFold s.buildings { s with game_time := s.game_time + 1 }).2 with
        buildings := (updateBuildingsFold s.buildings { s with game_time := s.game_time + 1 }).1 }).time_multiplier
        = (updateBuildingsFold s.buildings { s with game_time := s.game_time + 1 }).2.time_multiplier from rfl]
    rw [hfold]
    exact h
  have hrw := updateResourcesAndPopulation_of_paused _ hmult
  simp only [tick, hrw]

/-- Witness for C1 at a concrete paused colony. -/
theorem c1_witness : tick { gs0 with time_multiplier := 0 } = none :=
  c1_tick_paused_raises_div_by_zero { gs0 with time_multiplier := 0 } rfl

/-! ## Claim C3 -/

/-- **C3** (code_bug): an operational income-bearing structure is credited
*twice* per payout tick, not once.  `GameState.tick` runs
`building.update(self)` over all buildings and then calls
`update_resources_and_population`, which runs `building.update(self)` over
all buildings *again*; on a tick with `game_time % FPS == 0` each pass adds
`income × time_multiplier`.  Concretely: a colony holding one HAB_DOME
(income 10, multiplier 1) gains 20 credits on the payout tick (the claim
and `config.py`'s own comment "generates 10 credits per second" say 10),
and 0 on a non-payout tick. -/
theorem c3_income_paid_twice_per_second :
    (tick { addBuilding gs0 habBuilding 0 0 with game_time := 59 }).map GameState.credits
        = some ((addBuilding gs0 habBuilding 0 0).credits + 2 * (10 * 1)) ∧
    (tick (addBuilding gs0 habBuilding 0 0)).map GameState.credits
        = some (addBuilding gs0 habBuilding 0 0).credits ∧
    habBuilding.income = 10 ∧
    (addBuilding gs0 habBuilding 0 0).time_multiplier = 1 ∧
    (59 + 1) % (gs0.cfg.FPS) = 0 := by decide

/-! ## Claim C4 -/

/-- **C4** (code_bug): a converter whose counter has just reached
`required_ticks = cycle_seconds × ticks_per_second` with an insufficient
stockpile debits and credits nothing (first half of the claim, true), but
its counter is then set to `counter % required_ticks = 0` instead of being
clamped at `required_ticks`: the stall-clamp block (`buildings.py` lines
160-167, whose comment says the timer "should remain full") is guarded by
`num_cycles_completed == 0`, yet `num_cycles_completed = counter //
required_ticks ≥ 1` whenever the block is reachable, so the clamp is dead
code.  Concretely: a FUEL_REFINERY with counter 599+1 = 600 = 10×60 and an
empty OIL stockpile leaves `update` with counter 0, not 600. -/
theorem c4_converter_stall_resets_counter :
    (buildingUpdate refineryDue gs0).1.production_timer_ticks = 0 ∧
    (buildingUpdate refineryDue gs0).2.resources = gs0.resources ∧
    refineryDue.production_timer_ticks + 1 * gs0.time_multiplier =
      refineryDue.cycle_time_seconds * gs0.cfg.FPS ∧
    resGet gs0.resources "OIL" < refineryDue.input_amount := by decide

/-! ## Claim C5 -/

/-- **C5** (code_bug): the operational flag a consumer carries *after* a
tick is not computed from the previous tick's settled power balance.
Because `tick` updates every building a second time inside
`update_resources_and_population` — after `update_power_balance` has
already recomputed capacity/demand from the first pass — the final flag
reflects the *same* tick's recomputed balance, contradicting the claim and
the source's own comment ("Now that operational states and power are
stable for the tick").  Concretely: two SPACEPORTs settle at capacity 100 <
demand 200, so by the claim one tick must leave both `Offline`; the code
leaves both `Operational` (first pass turns them off, the balance drops to
demand 0, the second pass turns them back on). -/
theorem c5_status_uses_same_tick_power :
    (addBuilding (addBuilding gs0 spBuilding 0 0) spBuilding2 10 10).power_capacity <
      (addBuilding (addBuilding gs0 spBuilding 0 0) spBuilding2 10 10).power_demand ∧
    (addBuilding (addBuilding gs0 spBuilding 0 0) spBuilding2 10 10).buildings.all
      (fun b => decide (0 < b.power_draw)) = true ∧
    (tick (addBuilding (addBuilding gs0 spBuilding 0 0) spBuilding2 10 10)).map
      (fun s2 => s2.buildings.all (fun b => b.is_operational)) = some true := by decide

lemma buildings_map_placementOf (bs : List Building) :
    bs.map (fun b => (b.type_key, b.grid_x, b.grid_y)) = bs.map placementOf := rfl

lemma rebuildBuildings_shape (data : List (String × Nat × Nat)) (s : GameState) (i : Nat)
    (hall : ∀ d ∈ data, (s.cfg.BUILDING_TYPES.lookup d.1).isSome = true) :
    ∃ bs g, rebuildBuildings data s i = some { s with buildings := bs, grid := g } ∧
      bs.map placementOf = s.buildings.map placementOf ++ data := by
  induction data generalizing s i with
  | nil => exact ⟨s.buildings, s.grid, rfl, by simp⟩
  | cons d rest ih =>
    obtain ⟨key, gx, gy⟩ := d
    have hk := hall (key, gx, gy) (List.mem_cons_self _ _)
    rw [Option.isSome_iff_exists] at hk
    obtain ⟨dd, hdd⟩ := hk
    simp only [rebuildBuildings, mkBuilding, hdd]
    obtain ⟨bs, g, hrec, hmap⟩ :=
      ih { s with
             buildings := s.buildings ++ [mkBuildingFromDef i key dd gx gy],
             grid := markCells s.grid
               (footprintCells gx gy (mkBuildingFromDef i key dd gx gy).width_tiles
                 (mkBuildingFromDef i key dd gx gy).height_tiles)
               (some (mkBuildingFromDef i key dd gx gy)) }
        (i + 1) (fun d hd => hall d (List.mem_cons_of_mem _ hd))
    rw [hrec]
    refine ⟨bs, g, rfl, ?_⟩
    rw [hmap]
    simp only [List.map_append]
    have hpl : placementOf (mkBuildingFromDef i key dd gx gy) = (key, gx, gy) := rfl
    simp [hpl]

/-! ### Projection facts derived from the shape lemmas -/

lemma updatePowerBalance_buildings (u : GameState) :
    (updatePowerBalance u).buildings = u.buildings := rfl

lemma updatePowerBalance_time_multiplier (u : GameState) :
    (updatePowerBalance u).time_multiplier = u.time_multiplier := rfl

lemma updatePowerBalance_city_value (u : GameState) :
    (updatePowerBalance u).city_value = u.city_value := rfl

lemma updateBuildingsFold_snd_time_multiplier (bs : List Building) (u : GameState) :
    (updateBuildingsFold bs u).2.time_multiplier = u.time_multiplier := by
  obtain ⟨cr, rs, h, _⟩ := updateBuildingsFold_shape bs u
  rw [h]

lemma updateBuildingsFold_snd_city_value (bs : List Building) (u : GameState) :
    (updateBuildingsFold bs u).2.city_value = u.city_value := by
  obtain ⟨cr, rs, h, _⟩ := updateBuildingsFold_shape bs u
  rw [h]

lemma updateBuildingsFold_fst_map (bs : List Building) (u : GameState) :
    ((updateBuildingsFold bs u).1).map placementOf = bs.map placementOf :=
  (updateBuildingsFold_shape bs u).choose_spec.choose_spec.2

lemma checkForRankUp_buildings (u : GameState) :
    (checkForRankUp u).buildings = u.buildings := by
  obtain ⟨i, n, a, h⟩ := checkForRankUp_shape u
  rw [h]

lemma checkForRankUp_city_value (u : GameState) :
    (checkForRankUp u).city_value = u.city_value := by
  obtain ⟨i, n, a, h⟩ := checkForRankUp_shape u
  rw [h]

lemma postLoadRecompute_shape (s5 : GameState) (hm : ¬ s5.time_multiplier = 0) :
    ∃ s2, postLoadRecompute s5 = some s2 ∧
      s2.buildings.map placementOf = s5.buildings.map placementOf ∧
      s2.city_value = s5.city_value := by
  have hm2 : ¬ ({ (updateBuildingsFold (updatePowerBalance s5).buildings (updatePowerBalance s5)).2 with
      buildings := (updateBuildingsFold (updatePowerBalance s5).buildings (updatePowerBalance s5)).1 } : GameState).time_multiplier = 0 := by
    rw [show ({ (updateBuildingsFold (updatePowerBalance s5).buildings (updatePowerBalance s5)).2 with
        buildings := (updateBuildingsFold (updatePowerBalance s5).buildings (updatePowerBalance s5)).1 } : GameState).time_multiplier
      = (updateBuildingsFold (updatePowerBalance s5).buildings (updatePowerBalance s5)).2.time_multiplier from rfl]
    rw [updateBuildingsFold_snd_time_multiplier, updatePowerBalance_time_multiplier]
    exact hm
  obtain ⟨cr, rs, bs2, pop, hurp, hmapu⟩ := updateResourcesAndPopulation_shape _ hm2
  simp only [postLoadRecompute]
  rw [hurp]
  refine ⟨_, rfl, ?_, ?_⟩
  · rw [checkForRankUp_buildings]
    show bs2.map placementOf = s5.buildings.map placementOf
    rw [hmapu]
    show ((updateBuildingsFold (updatePowerBalance s5).buildings (updatePowerBalance s5)).1).map placementOf
      = s5.buildings.map placementOf
    rw [updateBuildingsFold_fst_map, updatePowerBalance_buildings]
  · rw [checkForRankUp_city_value]
    show ({ (updateBuildingsFold (updatePowerBalance s5).buildings (updatePowerBalance s5)).2 with
        buildings := (updateBuildingsFold (updatePowerBalance s5).buildings (updatePowerBalance s5)).1 } : GameState).city_value
      = s5.city_value
    rw [show ({ (updateBuildingsFold (updatePowerBalance s5).buildings (updatePowerBalance s5)).2 with
        buildings := (updateBuildingsFold (updatePowerBalance s5).buildings (updatePowerBalance s5)).1 } : GameState).city_value
      = (updateBuildingsFold (updatePowerBalance s5).buildings (updatePowerBalance s5)).2.city_value from rfl]
    rw [updateBuildingsFold_snd_city_value, updatePowerBalance_city_value]

/-! ## Claim C7 -/

/-- **C7 counterexample**: exporting the freshly initialised colony and
importing the snapshot does not reproduce the population.  `load_from_data`
ends with a recompute pass that calls `update_resources_and_population`;
at `game_time = 0` the decline interval divides `0 % 120 = 0`, housing
capacity is 0 and population 10, so the imported state has population 9. -/
theorem c7_roundtrip_changes_population :
    (loadFromData gs0 (getSaveData gs0)).map GameState.population = some 9 ∧
    gs0.population = 10 := by decide

/-- **C7 amended**: `export_state` then `import_state` (on a state whose
multiplier is nonzero, whose rank index is in range and whose structures
all carry catalog type keys — otherwise the import raises and returns
`False`) succeeds and reproduces the structure placements (type ids and
origins, in order) and `city_value` exactly; credits, population, resource
stockpiles and rank index are first copied from the snapshot but may then
be changed by the post-import recompute pass, as the counterexample shows,
so they are not in general identical. -/
theorem c7_roundtrip_preserves_placements_and_city_value (s : GameState)
    (hm : ¬ s.time_multiplier = 0)
    (hr : s.city_rank_index < s.cfg.CITY_RANKS.length)
    (hk : ∀ b ∈ s.buildings, (s.cfg.BUILDING_TYPES.lookup b.type_key).isSome = true) :
    ∃ s2, loadFromData s (getSaveData s) = some s2 ∧
      s2.buildings.map placementOf = s.buildings.map placementOf ∧
      s2.city_value = s.city_value := by
  have hget : s.cfg.CITY_RANKS.get? s.city_rank_index =
      some (s.cfg.CITY_RANKS.get ⟨s.city_rank_index, hr⟩) := List.get?_eq_get hr
  obtain ⟨bs, g, hrec, hmap⟩ := rebuildBuildings_shape
    (s.buildings.map (fun b => (b.type_key, b.grid_x, b.grid_y)))
    { s with city_rank := (s.cfg.CITY_RANKS.get ⟨s.city_rank_index, hr⟩).1,
             buildings := [], grid := freshGrid s.cfg } 0
    (by intro d hd
        obtain ⟨b, hb, rfl⟩ := List.mem_map.mp hd
        exact hk b hb)
  obtain ⟨s2, hpl, h1, h2⟩ := postLoadRecompute_shape
    { s with city_rank := (s.cfg.CITY_RANKS.get ⟨s.city_rank_index, hr⟩).1,
             buildings := bs, grid := g } hm
  refine ⟨s2, ?_, ?_, ?_⟩
  · simp only [loadFromData, getSaveData, hget, ite_self]
    rw [hrec]
    exact hpl
  · rw [h1]
    show bs.map placementOf = s.buildings.map placementOf
    rw [hmap, buildings_map_placementOf]
    simp
  · rw [h2]

/-- Witness for the amended C7 at the freshly initialised colony. -/
theorem c7_amended_witness :
    ∃ s2, loadFromData gs0 (getSaveData gs0) = some s2 ∧
      s2.buildings.map placementOf = gs0.buildings.map placementOf ∧
      s2.city_value = gs0.city_value :=
  c7_roundtrip_preserves_placements_and_city_value gs0 (by decide) (by decide) (by decide)

/-! ## Claim C8 -/

/-- **C8** (confirmed): `check_for_rank_up` never decreases the rank index,
advances it by at most one per evaluation, advances exactly when the index
is below the last rank and `city_value` has reached the next threshold,
appends exactly the rank-change notification when it advances, and leaves
the state untouched otherwise. -/
theorem c8_rank_up_monotone_one_step (s : GameState) :
    s.city_rank_index ≤ (checkForRankUp s).city_rank_index ∧
    (checkForRankUp s).city_rank_index ≤ s.city_rank_index + 1 ∧
    ((checkForRankUp s).city_rank_index = s.city_rank_index + 1 ↔
      (s.city_rank_index < s.cfg.CITY_RANKS.length - 1 ∧
       ((s.cfg.CITY_RANKS.get? (s.city_rank_index + 1)).getD ("", 0)).2 ≤ s.city_value)) ∧
    ((checkForRankUp s).city_rank_index = s.city_rank_index + 1 →
      (checkForRankUp s).current_alerts = s.current_alerts ++
        ["Promoted to " ++ ((s.cfg.CITY_RANKS.get? (s.city_rank_index + 1)).getD ("", 0)).1 ++ "!"]) ∧
    ((checkForRankUp s).city_rank_index = s.city_rank_index → checkForRankUp s = s) := by
  simp only [checkForRankUp]
  split
  · next hmax =>
    refine ⟨Nat.le_refl _, Nat.le_succ _, ?_, ?_, fun _ => rfl⟩
    · simp only [iff_def]
      constructor
      · intro habs; omega
      · intro hq; omega
    · intro habs; omega
  · next hmax =>
    split
    · next hq =>
      refine ⟨Nat.le_succ _, Nat.le_refl _, ?_, fun _ => rfl, ?_⟩
      · simp only [true_iff, iff_true]
        exact ⟨by omega, hq⟩
      · intro habs
        simp at habs
    · next hq =>
      refine ⟨Nat.le_refl _, Nat.le_succ _, ?_, ?_, fun _ => rfl⟩
      · simp only [iff_def]
        constructor
        · intro habs; omega
        · intro hcon; exact absurd hcon.2 hq
      · intro habs; omega

/-- Witness for C8: a colony whose value just crossed the second-rank
threshold advances by exactly one level. -/
theorem c8_witness :
    (checkForRankUp { gs0 with city_value := 20000 }).city_rank_index =
      ({ gs0 with city_value := 20000 } : GameState).city_rank_index + 1 :=
  (c8_rank_up_monotone_one_step { gs0 with city_value := 20000 }).2.2.1.mpr (by decide)

/-! ## Claim C9 -/

lemma findRankIndex_eq (ranks : List (String × Int)) (name : String) (k : Nat) :
    findRankIndex ranks name k =
      (specRankIndex ranks name).elim (-1) (fun i => ((i + k : Nat) : Int)) := by
  induction ranks generalizing k with
  | nil => rfl
  | cons r rest ih =>
    simp only [findRankIndex, specRankIndex]
    split
    · simp
    · rw [ih (k + 1)]
      cases h : specRankIndex rest name with
      | none => simp
      | some i =>
        simp only [Option.map_some', Option.elim_some]
        omega

lemma unlock_chain_iff (c1 : Prop) [Decidable c1] (b1 b2 b3 : Bool) :
    ((if c1 then true
      else if b1 = true then false
      else if b2 = true then false
      else if b3 = true then false
      else true) = true) ↔
    (c1 ∨ (b1 = false ∧ b2 = false ∧ b3 = false)) := by
  by_cases h : c1 <;> cases b1 <;> cases b2 <;> cases b3 <;> simp [h]

lemma popBlocked_eq_false_iff (s : GameState) (cp : Option Nat) :
    ((match cp with
      | some p => decide (s.population < p)
      | none => false) = false) ↔
    (∀ p, cp = some p → p ≤ s.population) := by
  cases cp with
  | none => simp
  | some p =>
    simp only [decide_eq_false_iff_not, Nat.not_lt, Option.some.injEq]
    constructor
    · intro h q hq
      subst hq
      exact h
    · intro h
      exact h p rfl

lemma rankBlocked_eq_false_iff (s : GameState) (cr : Option String) :
    ((match cr with
      | some rname =>
        decide (findRankIndex s.cfg.CITY_RANKS rname 0 = -1 ∨
          (s.city_rank_index : Int) < findRankIndex s.cfg.CITY_RANKS rname 0)
      | none => false) = false) ↔
    (∀ rname, cr = some rname →
      ∃ ri, specRankIndex s.cfg.CITY_RANKS rname = some ri ∧ ri ≤ s.city_rank_index) := by
  cases cr with
  | none => simp
  | some rname =>
    simp only [decide_eq_false_iff_not, Option.some.injEq, findRankIndex_eq]
    cases h : specRankIndex s.cfg.CITY_RANKS rname with
    | none =>
      simp only [Option.elim_none]
      constructor
      · intro hno
        exact absurd (Or.inl trivial) hno
      · intro hall
        obtain ⟨ri, hri, _⟩ := hall rname rfl
        rw [h] at hri
        exact absurd hri (by simp)
    | some i =>
      simp only [Option.elim_some]
      constructor
      · intro hno rname2 hrn
        subst hrn
        refine ⟨i, h, ?_⟩
        push_neg at hno
        omega
      · intro hall
        obtain ⟨ri, hri, hle⟩ := hall rname rfl
        rw [h, Option.some.injEq] at hri
        subst hri
        intro hor
        rcases hor with h1 | h2 <;> omega

lemma techBlocked_eq_false_iff (s : GameState) (ct : Option String) :
    ((match ct with
      | some t => decide (¬ t ∈ s.unlocked_technologies)
      | none => false) = false) ↔
    (∀ t, ct = some t → t ∈ s.unlocked_technologies) := by
  cases ct with
  | none => simp
  | some t =>
    simp only [decide_eq_false_iff_not, not_not, Option.some.injEq]
    constructor
    · intro h q hq
      subst hq
      exact h
    · intro h
      exact h t rfl

/-- **C9** (confirmed): for a key present in the catalog,
`is_building_unlocked` returns true exactly under the claim's condition:
the unlock dict is empty, or every specified condition holds — population
at least the required one, rank index at least the index of the required
rank name (an unknown name is unsatisfiable, making the result false),
required technology in the unlocked set.  The embedding is a pure function
of the state, so the call mutates nothing. -/
theorem c9_is_building_unlocked_spec (s : GameState) (key : String) (d : BuildingTypeDef)
    (hl : s.cfg.BUILDING_TYPES.lookup key = some d) :
    isBuildingUnlocked s key = true ↔ unlockConditionsSpec s d.unlock_conditions := by
  simp only [isBuildingUnlocked, hl]
  rw [unlock_chain_iff]
  unfold unlockConditionsSpec
  rw [popBlocked_eq_false_iff, rankBlocked_eq_false_iff, techBlocked_eq_false_iff]

/-- Witness for C9: `HAB_DOME` has empty unlock conditions, so it is
unlocked in the initial colony. -/
theorem c9_witness : isBuildingUnlocked gs0 "HAB_DOME" = true :=
  (c9_is_building_unlocked_spec gs0 "HAB_DOME" _ rfl).mpr (Or.inl (by decide))

/-! ## Claim C10 -/

lemma updatePowerBalance_credits (u : GameState) :
    (updatePowerBalance u).credits = u.credits := rfl

lemma updatePowerBalance_grid (u : GameState) :
    (updatePowerBalance u).grid = u.grid := rfl

lemma checkForRankUp_credits (u : GameState) :
    (checkForRankUp u).credits = u.credits := by
  obtain ⟨i, n, a, h⟩ := checkForRankUp_shape u
  rw [h]

lemma checkForRankUp_grid (u : GameState) :
    (checkForRankUp u).grid = u.grid := by
  obtain ⟨i, n, a, h⟩ := checkForRankUp_shape u
  rw [h]

/-- **C10** (confirmed): `add_building` checks nothing.  For every state and
every building object it appends the object, debits the full cost and adds
it to `city_value` (regardless of the current credit balance, so credits
can go negative — see the witness), and, whenever the footprint fits the
grid, claims every footprint cell; the
`InsufficientFunds`/`Locked`/`OutOfBounds`/`TileOccupied` gating lives only
in the click-handler path of `main.py`, embedded here as `canPlace`. -/
theorem c10_add_building_unconditional (s : GameState) (b : Building) (gx gy : Nat) :
    (addBuilding s b gx gy).buildings = s.buildings ++ [b] ∧
    (addBuilding s b gx gy).credits = s.credits - b.cost ∧
    (addBuilding s b gx gy).city_value = s.city_value + b.cost ∧
    (rectangularB s.grid s.cfg.GRID_WIDTH s.cfg.GRID_HEIGHT = true →
      gx + b.width_tiles ≤ s.cfg.GRID_WIDTH →
      gy + b.height_tiles ≤ s.cfg.GRID_HEIGHT →
      ∀ x y, (x, y) ∈ footprintCells gx gy b.width_tiles b.height_tiles →
        getCell (addBuilding s b gx gy).grid x y = some b) := by
  refine ⟨?_, ?_, ?_, ?_⟩
  · rw [show addBuilding s b gx gy = checkForRankUp (updatePowerBalance
      { s with buildings := s.buildings ++ [b],
               grid := markCells s.grid (footprintCells gx gy b.width_tiles b.height_tiles) (some b),
               credits := s.credits - b.cost,
               city_value := s.city_value + b.cost }) from rfl]
    rw [checkForRankUp_buildings, updatePowerBalance_buildings]
  · rw [show addBuilding s b gx gy = checkForRankUp (updatePowerBalance
      { s with buildings := s.buildings ++ [b],
               grid := markCells s.grid (footprintCells gx gy b.width_tiles b.height_tiles) (some b),
               credits := s.credits - b.cost,
               city_value := s.city_value + b.cost }) from rfl]
    rw [checkForRankUp_credits, updatePowerBalance_credits]
  · rw [show addBuilding s b gx gy = checkForRankUp (updatePowerBalance
      { s with buildings := s.buildings ++ [b],
               grid := markCells s.grid (footprintCells gx gy b.width_tiles b.height_tiles) (some b),
               credits := s.credits - b.cost,
               city_value := s.city_value + b.cost }) from rfl]
    rw [checkForRankUp_city_value, updatePowerBalance_city_value]
  · intro hrect hw hh x y hmem
    have hgrid : (addBuilding s b gx gy).grid
        = markCells s.grid (footprintCells gx gy b.width_tiles b.height_tiles) (some b) := by
      rw [show addBuilding s b gx gy = checkForRankUp (updatePowerBalance
        { s with buildings := s.buildings ++ [b],
                 grid := markCells s.grid (footprintCells gx gy b.width_tiles b.height_tiles) (some b),
                 credits := s.credits - b.cost,
                 city_value := s.city_value + b.cost }) from rfl]
      rw [checkForRankUp_grid, updatePowerBalance_grid]
    have hc : ∀ p ∈ footprintCells gx gy b.width_tiles b.height_tiles,
        p.1 < s.cfg.GRID_WIDTH ∧ p.2 < s.cfg.GRID_HEIGHT := by
      intro p hp
      rw [mem_footprintCells] at hp
      omega
    rw [hgrid, getCell_markCells hrect hc (some b) x y, if_pos hmem]

/-- Witness for C10: placing a SPACEPORT (cost 50000) into the freshly
initialised colony (credits 10000) drives credits to -40000 while the
structure is appended and its footprint claimed. -/
theorem c10_witness :
    (addBuilding gs0 spBuilding 0 0).credits < 0 ∧
    (addBuilding gs0 spBuilding 0 0).buildings = gs0.buildings ++ [spBuilding] ∧
    getCell (addBuilding gs0 spBuilding 0 0).grid 2 2 = some spBuilding := by
  have h := c10_add_building_unconditional gs0 spBuilding 0 0
  refine ⟨?_, h.1, ?_⟩
  · rw [h.2.1]
    decide
  · exact h.2.2.2 (by decide) (by decide) (by decide) 2 2 (by decide)

/-! ## Claim C2 -/

lemma updatePowerBalance_cfg (u : GameState) : (updatePowerBalance u).cfg = u.cfg := rfl

lemma checkForRankUp_cfg (u : GameState) : (checkForRankUp u).cfg = u.cfg := by
  obtain ⟨i, n, a, h⟩ := checkForRankUp_shape u
  rw [h]

lemma checkForRankUp_power_capacity (u : GameState) :
    (checkForRankUp u).power_capacity = u.power_capacity := by
  obtain ⟨i, n, a, h⟩ := checkForRankUp_shape u
  rw [h]

lemma checkForRankUp_power_demand (u : GameState) :
    (checkForRankUp u).power_demand = u.power_demand := by
  obtain ⟨i, n, a, h⟩ := checkForRankUp_shape u
  rw [h]

lemma addBuilding_eq (s : GameState) (b : Building) (gx gy : Nat) :
    addBuilding s b gx gy = checkForRankUp (updatePowerBalance
      { s with buildings := s.buildings ++ [b],
               grid := markCells s.grid (footprintCells gx gy b.width_tiles b.height_tiles) (some b),
               credits := s.credits - b.cost,
               city_value := s.city_value + b.cost }) := rfl

lemma addBuilding_buildings (s : GameState) (b : Building) (gx gy : Nat) :
    (addBuilding s b gx gy).buildings = s.buildings ++ [b] := by
  rw [addBuilding_eq, checkForRankUp_buildings, updatePowerBalance_buildings]

lemma addBuilding_credits (s : GameState) (b : Building) (gx gy : Nat) :
    (addBuilding s b gx gy).credits = s.credits - b.cost := by
  rw [addBuilding_eq, checkForRankUp_credits, updatePowerBalance_credits]

lemma addBuilding_city_value (s : GameState) (b : Building) (gx gy : Nat) :
    (addBuilding s b gx gy).city_value = s.city_value + b.cost := by
  rw [addBuilding_eq, checkForRankUp_city_value, updatePowerBalance_city_value]

lemma addBuilding_grid (s : GameState) (b : Building) (gx gy : Nat) :
    (addBuilding s b gx gy).grid =
      markCells s.grid (footprintCells gx gy b.width_tiles b.height_tiles) (some b) := by
  rw [addBuilding_eq, checkForRankUp_grid, updatePowerBalance_grid]

lemma addBuilding_cfg (s : GameState) (b : Building) (gx gy : Nat) :
    (addBuilding s b gx gy).cfg = s.cfg := by
  rw [addBuilding_eq, checkForRankUp_cfg, updatePowerBalance_cfg]

lemma removeBuilding_found {s : GameState} {gx gy : Nat} {b : Building}
    (h : getCell s.grid gx gy = some b) :
    removeBuilding s gx gy = removeFound s gx gy b := by
  simp only [removeBuilding, h]

lemma removeFound_eq (s : GameState) (gx gy : Nat) (b : Building) :
    removeFound s gx gy b =
      (if (checkForRankUp (updatePowerBalance
            { s with grid := markCells s.grid (footprintCells gx gy b.width_tiles b.height_tiles) none,
                     buildings := if b ∈ s.buildings then removeFirst b s.buildings else s.buildings,
                     city_value := if s.city_value - b.cost < 0 then 0
                                   else s.city_value - b.cost })).selected_building_instance = some b
       then { checkForRankUp (updatePowerBalance
            { s with grid := markCells s.grid (footprintCells gx gy b.width_tiles b.height_tiles) none,
                     buildings := if b ∈ s.buildings then removeFirst b s.buildings else s.buildings,
                     city_value := if s.city_value - b.cost < 0 then 0
                                   else s.city_value - b.cost }) with
              selected_building_instance := none }
       else checkForRankUp (updatePowerBalance
            { s with grid := markCells s.grid (footprintCells gx gy b.width_tiles b.height_tiles) none,
                     buildings := if b ∈ s.buildings then removeFirst b s.buildings else s.buildings,
                     city_value := if s.city_value - b.cost < 0 then 0
                                   else s.city_value - b.cost })) := rfl

lemma deselect_fields (X : GameState) (b : Building) :
    (((if X.selected_building_instance = some b
       then { X with selected_building_instance := none }
       else X) : GameState).credits = X.credits) ∧
    (((if X.selected_building_instance = some b
       then { X with selected_building_instance := none }
       else X) : GameState).city_value = X.city_value) ∧
    (((if X.selected_building_instance = some b
       then { X with selected_building_instance := none }
       else X) : GameState).power_capacity = X.power_capacity) ∧
    (((if X.selected_building_instance = some b
       then { X with selected_building_instance := none }
       else X) : GameState).power_demand = X.power_demand) ∧
    (((if X.selected_building_instance = some b
       then { X with selected_building_instance := none }
       else X) : GameState).grid = X.grid) := by
  split
  all_goals exact ⟨rfl, rfl, rfl, rfl, rfl⟩

lemma markCells_roundtrip {g : Grid} {w h : Nat} (hrect : rectangularB g w h = true)
    {cells : List (Nat × Nat)} (hc : ∀ p ∈ cells, p.1 < w ∧ p.2 < h)
    (hempty : ∀ p ∈ cells, getCell g p.1 p.2 = none) (b : Building) :
    markCells (markCells g cells (some b)) cells none = g := by
  apply grid_ext (rect_markCells (rect_markCells hrect cells (some b)) cells none) hrect
  intro x y hx hy
  rw [getCell_markCells (rect_markCells hrect cells (some b)) hc none x y,
      getCell_markCells hrect hc (some b) x y]
  by_cases hmem : (x, y) ∈ cells
  · rw [if_pos hmem]
    exact (hempty (x, y) hmem).symm
  · rw [if_neg hmem, if_neg hmem]

lemma updatePowerBalance_power_capacity_eq (u : GameState) :
    (updatePowerBalance u).power_capacity =
      (powerTotals u.buildings (u.cfg.INITIAL_POWER, 0)).1 := rfl

lemma updatePowerBalance_power_demand_eq (u : GameState) :
    (updatePowerBalance u).power_demand =
      (powerTotals u.buildings (u.cfg.INITIAL_POWER, 0)).2 := rfl

/-- **C2 counterexample**: a fully legal place (unlocked, affordable,
in-bounds, unoccupied origin) followed by an immediate remove does *not*
restore credits: `remove_building` grants no refund (the refund line is
commented out), so placing and removing a COMMAND_CENTER leaves the fresh
colony at 5000 credits instead of its initial 10000. -/
theorem c2_place_remove_does_not_restore_credits :
    canPlace gs0 "COMMAND_CENTER" 0 0 = true ∧
    mkBuilding 1 "COMMAND_CENTER" defaultConfig.BUILDING_TYPES 0 0 = some ccBuilding ∧
    (removeBuilding (addBuilding gs0 ccBuilding 0 0) 0 0).credits = 5000 ∧
    gs0.credits = 10000 := by decide

/-- **C2 amended**: under the same preconditions (the placement passes the
caller's gating; the building object is freshly constructed for that spot;
the state is engine-reachable: rectangular grid, settled power balance,
non-negative `city_value`), place followed by remove at the same origin
restores `city_value`, `power_capacity`, `power_demand` and every grid
cell exactly, while credits end exactly `cost` lower than before the
placement — no refund on removal. -/
theorem c2_place_remove_restores_all_but_credits
    (s : GameState) (key : String) (i gx gy : Nat) (b : Building) (d : BuildingTypeDef)
    (hlk : s.cfg.BUILDING_TYPES.lookup key = some d)
    (hcp : canPlace s key gx gy = true)
    (hmk : mkBuilding i key s.cfg.BUILDING_TYPES gx gy = some b)
    (hfresh : ∀ c ∈ s.buildings, c.id ≠ i)
    (hrect : rectangularB s.grid s.cfg.GRID_WIDTH s.cfg.GRID_HEIGHT = true)
    (hps : powerSettled s)
    (hcv : 0 ≤ s.city_value)
    (hw : 1 ≤ b.width_tiles) (hh : 1 ≤ b.height_tiles) :
    (removeBuilding (addBuilding s b gx gy) gx gy).credits = s.credits - b.cost ∧
    (removeBuilding (addBuilding s b gx gy) gx gy).city_value = s.city_value ∧
    (removeBuilding (addBuilding s b gx gy) gx gy).power_capacity = s.power_capacity ∧
    (removeBuilding (addBuilding s b gx gy) gx gy).power_demand = s.power_demand ∧
    (removeBuilding (addBuilding s b gx gy) gx gy).grid = s.grid := by
  simp only [mkBuilding, hlk, Option.some.injEq] at hmk
  have hbw : b.width_tiles = d.width_tiles := by rw [← hmk]; rfl
  have hbh : b.height_tiles = d.height_tiles := by rw [← hmk]; rfl
  have hbid : b.id = i := by rw [← hmk]; rfl
  simp only [canPlace, hlk, Bool.and_eq_true, decide_eq_true_eq, List.all_eq_true] at hcp
  obtain ⟨⟨⟨⟨hunlock, hcred⟩, hgx⟩, hgy⟩, hempty0⟩ := hcp
  rw [hbw] at hw
  rw [hbh] at hh
  have hc : ∀ p ∈ footprintCells gx gy b.width_tiles b.height_tiles,
      p.1 < s.cfg.GRID_WIDTH ∧ p.2 < s.cfg.GRID_HEIGHT := by
    intro p hp
    rw [mem_footprintCells, hbw, hbh] at hp
    omega
  have hempty : ∀ p ∈ footprintCells gx gy b.width_tiles b.height_tiles,
      getCell s.grid p.1 p.2 = none := by
    intro p hp
    rw [hbw, hbh] at hp
    exact hempty0 p hp
  have horigin : (gx, gy) ∈ footprintCells gx gy b.width_tiles b.height_tiles := by
    rw [mem_footprintCells]
    omega
  have hcell : getCell (addBuilding s b gx gy).grid gx gy = some b := by
    rw [addBuilding_grid, getCell_markCells hrect hc (some b) gx gy, if_pos horigin]
  have hmemB : b ∈ (addBuilding s b gx gy).buildings := by
    rw [addBuilding_buildings]
    exact List.mem_append_right _ (List.mem_singleton.mpr rfl)
  have hnotmem : b ∉ s.buildings := fun hmem => hfresh b hmem hbid
  rw [removeBuilding_found hcell, removeFound_eq]
  refine ⟨?_, ?_, ?_, ?_, ?_⟩
  · rw [(deselect_fields _ b).1, checkForRankUp_credits, updatePowerBalance_credits]
    show (addBuilding s b gx gy).credits = s.credits - b.cost
    rw [addBuilding_credits]
  · rw [(deselect_fields _ b).2.1, checkForRankUp_city_value, updatePowerBalance_city_value]
    show (if (addBuilding s b gx gy).city_value - b.cost < 0 then 0
          else (addBuilding s b gx gy).city_value - b.cost) = s.city_value
    rw [addBuilding_city_value, if_neg (by omega)]
    omega
  · rw [(deselect_fields _ b).2.2.1, checkForRankUp_power_capacity,
        updatePowerBalance_power_capacity_eq]
    show (powerTotals
        (if b ∈ (addBuilding s b gx gy).buildings
         then removeFirst b (addBuilding s b gx gy).buildings
         else (addBuilding s b gx gy).buildings)
        ((addBuilding s b gx gy).cfg.INITIAL_POWER, 0)).1 = s.power_capacity
    rw [if_pos hmemB, addBuilding_buildings, removeFirst_append_of_not_mem hnotmem,
        addBuilding_cfg, powerSettled_totals hps]
  · rw [(deselect_fields _ b).2.2.2.1, checkForRankUp_power_demand,
        updatePowerBalance_power_demand_eq]
    show (powerTotals
        (if b ∈ (addBuilding s b gx gy).buildings
         then removeFirst b (addBuilding s b gx gy).buildings
         else (addBuilding s b gx gy).buildings)
        ((addBuilding s b gx gy).cfg.INITIAL_POWER, 0)).2 = s.power_demand
    rw [if_pos hmemB, addBuilding_buildings, removeFirst_append_of_not_mem hnotmem,
        addBuilding_cfg, powerSettled_totals hps]
  · rw [(deselect_fields _ b).2.2.2.2, checkForRankUp_grid, updatePowerBalance_grid]
    show markCells (addBuilding s b gx gy).grid
        (footprintCells gx gy b.width_tiles b.height_tiles) none = s.grid
    rw [addBuilding_grid]
    exact markCells_roundtrip hrect hc hempty b

/-- Witness for the amended C2: COMMAND_CENTER placed and removed at the
origin of the fresh colony. -/
theorem c2_amended_witness :
    (removeBuilding (addBuilding gs0 ccBuilding 0 0) 0 0).credits = gs0.credits - ccBuilding.cost ∧
    (removeBuilding (addBuilding gs0 ccBuilding 0 0) 0 0).city_value = gs0.city_value ∧
    (removeBuilding (addBuilding gs0 ccBuilding 0 0) 0 0).power_capacity = gs0.power_capacity ∧
    (removeBuilding (addBuilding gs0 ccBuilding 0 0) 0 0).power_demand = gs0.power_demand ∧
    (removeBuilding (addBuilding gs0 ccBuilding 0 0) 0 0).grid = gs0.grid :=
  c2_place_remove_restores_all_but_credits gs0 "COMMAND_CENTER" 1 0 0 ccBuilding
    { cost := 5000, power_draw := 10 } (by decide) (by decide) (by decide)
    (by decide) (by decide) (show updatePowerBalance gs0 = gs0 by decide)
    (by decide) (by decide) (by decide)

/-! ## Claim C6 -/

lemma getCell_bounds {g : Grid} {w h : Nat} (hrect : rectangularB g w h = true)
    {x y : Nat} {b : Building} (hcell : getCell g x y = some b) : x < w ∧ y < h := by
  rw [rectangularB_iff] at hrect
  by_cases hy : y < h
  · have hylen : y < g.length := hrect.1 ▸ hy
    by_cases hx : x < w
    · exact ⟨hx, hy⟩
    · exfalso
      have hrow : (g[y]?.getD []).length = w := by
        rw [List.getElem?_eq_getElem hylen]
        simp only [Option.getD_some]
        exact hrect.2 _ (List.getElem_mem hylen)
      have hinner : (g[y]?.getD [])[x]? = none := List.getElem?_eq_none (by omega)
      rw [getCell, hinner] at hcell
      simp at hcell
  · exfalso
    have hlen : g.length = h := hrect.1
    have houter : g[y]? = none := List.getElem?_eq_none (by omega)
    rw [getCell, houter] at hcell
    simp at hcell

lemma getCell_freshGrid (cfg : Config) (x y : Nat) :
    getCell (freshGrid cfg) x y = none := by
  unfold getCell freshGrid
  rw [List.getElem?_replicate]
  by_cases hy : y < cfg.GRID_HEIGHT
  · rw [if_pos hy]
    simp only [Option.getD_some]
    rw [List.getElem?_replicate]
    by_cases hx : x < cfg.GRID_WIDTH
    · rw [if_pos hx]
      rfl
    · rw [if_neg hx]
      rfl
  · rw [if_neg hy]
    rfl

lemma rect_freshGrid (cfg : Config) :
    rectangularB (freshGrid cfg) cfg.GRID_WIDTH cfg.GRID_HEIGHT = true := by
  rw [rectangularB_iff]
  refine ⟨List.length_replicate _ _, ?_⟩
  intro row hrow
  rw [List.eq_of_mem_replicate hrow]
  exact List.length_replicate _ _

/-- The freshly initialised colony is well-formed: empty structure list and
an all-`None` grid. -/
lemma wellFormed_init (cfg : Config) (rg : List (List (Option String))) :
    WellFormedState (initState cfg rg) := by
  refine ⟨rect_freshGrid cfg, ?_, ?_, ?_⟩
  · rw [show (initState cfg rg).buildings = [] from rfl]
    simp
  · intro x y b hx hy hcell
    rw [show (initState cfg rg).grid = freshGrid cfg from rfl, getCell_freshGrid] at hcell
    exact absurd hcell (by simp)
  · intro b hb
    rw [show (initState cfg rg).buildings = [] from rfl] at hb
    exact absurd hb (List.not_mem_nil b)

lemma deselect_buildings (X : GameState) (b : Building) :
    (((if X.selected_building_instance = some b
       then { X with selected_building_instance := none }
       else X) : GameState)).buildings = X.buildings := by
  split
  all_goals rfl

lemma deselect_cfg (X : GameState) (b : Building) :
    (((if X.selected_building_instance = some b
       then { X with selected_building_instance := none }
       else X) : GameState)).cfg = X.cfg := by
  split
  all_goals rfl

lemma removeFound_grid (s : GameState) (gx gy : Nat) (b : Building) :
    (removeFound s gx gy b).grid =
      markCells s.grid (footprintCells gx gy b.width_tiles b.height_tiles) none := by
  rw [removeFound_eq, (deselect_fields _ b).2.2.2.2, checkForRankUp_grid,
      updatePowerBalance_grid]

lemma removeFound_buildings (s : GameState) (gx gy : Nat) (b : Building) :
    (removeFound s gx gy b).buildings =
      (if b ∈ s.buildings then removeFirst b s.buildings else s.buildings) := by
  rw [removeFound_eq, deselect_buildings, checkForRankUp_buildings,
      updatePowerBalance_buildings]

lemma removeFound_cfg (s : GameState) (gx gy : Nat) (b : Building) :
    (removeFound s gx gy b).cfg = s.cfg := by
  rw [removeFound_eq, deselect_cfg, checkForRankUp_cfg, updatePowerBalance_cfg]

/-- **C6 amended**: starting from a well-formed state (well-shaped grid,
distinct building objects, grid/list agreement), a place that passes the
caller's gating preserves the agreement, and so does a remove whose target
cell holds a structure *at its origin*; the unrestricted claim fails for a
remove through a non-origin cell of a multi-tile structure (see the
counterexample). -/
theorem c6_place_and_origin_remove_preserve_agreement :
    (∀ (s : GameState) (key : String) (i gx gy : Nat) (b : Building) (d : BuildingTypeDef),
      s.cfg.BUILDING_TYPES.lookup key = some d →
      canPlace s key gx gy = true →
      mkBuilding i key s.cfg.BUILDING_TYPES gx gy = some b →
      (∀ c ∈ s.buildings, c.id ≠ i) →
      WellFormedState s →
      WellFormedState (addBuilding s b gx gy)) ∧
    (∀ (s : GameState) (gx gy : Nat) (b : Building),
      getCell s.grid gx gy = some b →
      b.grid_x = gx → b.grid_y = gy →
      WellFormedState s →
      WellFormedState (removeBuilding s gx gy)) := by
  constructor
  · intro s key i gx gy b d hlk hcp hmk hfresh hW
    simp only [mkBuilding, hlk, Option.some.injEq] at hmk
    have hbw : b.width_tiles = d.width_tiles := by rw [← hmk]; rfl
    have hbh : b.height_tiles = d.height_tiles := by rw [← hmk]; rfl
    have hbid : b.id = i := by rw [← hmk]; rfl
    have hbgx : b.grid_x = gx := by rw [← hmk]; rfl
    have hbgy : b.grid_y = gy := by rw [← hmk]; rfl
    simp only [canPlace, hlk, Bool.and_eq_true, decide_eq_true_eq, List.all_eq_true] at hcp
    obtain ⟨⟨⟨⟨hunlock, hcred⟩, hgx⟩, hgy⟩, hempty0⟩ := hcp
    have hc : ∀ p ∈ footprintCells gx gy b.width_tiles b.height_tiles,
        p.1 < s.cfg.GRID_WIDTH ∧ p.2 < s.cfg.GRID_HEIGHT := by
      intro p hp
      rw [mem_footprintCells, hbw, hbh] at hp
      omega
    have hempty : ∀ p ∈ footprintCells gx gy b.width_tiles b.height_tiles,
        getCell s.grid p.1 p.2 = none := by
      intro p hp
      rw [hbw, hbh] at hp
      exact hempty0 p hp
    have hbmem : ∀ x y, inFootprint b x y ↔
        (x, y) ∈ footprintCells gx gy b.width_tiles b.height_tiles := by
      intro x y
      rw [mem_footprintCells, inFootprint, hbgx, hbgy]
    refine ⟨?_, ?_, ?_, ?_⟩
    · rw [show (addBuilding s b gx gy).cfg.GRID_WIDTH = s.cfg.GRID_WIDTH from by
            rw [addBuilding_cfg],
          show (addBuilding s b gx gy).cfg.GRID_HEIGHT = s.cfg.GRID_HEIGHT from by
            rw [addBuilding_cfg],
          addBuilding_grid]
      exact rect_markCells hW.rect _ _
    · rw [addBuilding_buildings, List.map_append, List.nodup_append]
      refine ⟨hW.ids, by simp, ?_⟩
      intro a ha
      obtain ⟨c, hcmem, rfl⟩ := List.mem_map.mp ha
      simp only [List.map_cons, List.map_nil, List.mem_singleton]
      intro habs
      exact hfresh c hcmem (by rw [habs, hbid])
    · intro x y c hx hy hcell
      rw [addBuilding_cfg] at hx hy
      rw [addBuilding_grid, getCell_markCells hW.rect hc (some b) x y] at hcell
      by_cases hmem : (x, y) ∈ footprintCells gx gy b.width_tiles b.height_tiles
      · rw [if_pos hmem] at hcell
        obtain rfl : b = c := by injection hcell
        refine ⟨?_, (hbmem x y).mpr hmem⟩
        rw [addBuilding_buildings]
        exact List.mem_append_right _ (List.mem_singleton.mpr rfl)
      · rw [if_neg hmem] at hcell
        obtain ⟨hmem2, hfoot2⟩ := hW.agrees.owner x y c hx hy hcell
        refine ⟨?_, hfoot2⟩
        rw [addBuilding_buildings]
        exact List.mem_append_left _ hmem2
    · intro c hcmem x y hfoot
      rw [addBuilding_buildings] at hcmem
      rw [addBuilding_grid, getCell_markCells hW.rect hc (some b) x y]
      rcases List.mem_append.mp hcmem with hold | hnew
      · have hcellold := hW.agrees.covers c hold x y hfoot
        have hnot : (x, y) ∉ footprintCells gx gy b.width_tiles b.height_tiles := by
          intro habs
          rw [hempty (x, y) habs] at hcellold
          exact absurd hcellold (by simp)
        rw [if_neg hnot]
        exact hcellold
      · obtain rfl : c = b := List.mem_singleton.mp hnew
        rw [if_pos ((hbmem x y).mp hfoot)]
  · intro s gx gy b hcell hbgx hbgy hW
    have hbounds := getCell_bounds hW.rect hcell
    obtain ⟨hbmem0, hfoot0⟩ := hW.agrees.owner gx gy b hbounds.1 hbounds.2 hcell
    have hnodup : s.buildings.Nodup := List.Nodup.of_map _ hW.ids
    have hmemiff : ∀ x y, inFootprint b x y ↔
        (x, y) ∈ footprintCells gx gy b.width_tiles b.height_tiles := by
      intro x y
      rw [mem_footprintCells, inFootprint, hbgx, hbgy]
    have hc : ∀ p ∈ footprintCells gx gy b.width_tiles b.height_tiles,
        p.1 < s.cfg.GRID_WIDTH ∧ p.2 < s.cfg.GRID_HEIGHT := by
      intro p hp
      have hfootp : inFootprint b p.1 p.2 := (hmemiff p.1 p.2).mpr hp
      exact getCell_bounds hW.rect (hW.agrees.covers b hbmem0 p.1 p.2 hfootp)
    have hbuild : (removeBuilding s gx gy).buildings = removeFirst b s.buildings := by
      rw [removeBuilding_found hcell, removeFound_buildings, if_pos hbmem0]
    have hgrid : (removeBuilding s gx gy).grid
        = markCells s.grid (footprintCells gx gy b.width_tiles b.height_tiles) none := by
      rw [removeBuilding_found hcell, removeFound_grid]
    have hcfg : (removeBuilding s gx gy).cfg = s.cfg := by
      rw [removeBuilding_found hcell, removeFound_cfg]
    have hbnotin : b ∉ removeFirst b s.buildings := not_mem_removeFirst hnodup
    refine ⟨?_, ?_, ?_, ?_⟩
    · rw [show (removeBuilding s gx gy).cfg.GRID_WIDTH = s.cfg.GRID_WIDTH from by rw [hcfg],
          show (removeBuilding s gx gy).cfg.GRID_HEIGHT = s.cfg.GRID_HEIGHT from by rw [hcfg],
          hgrid]
      exact rect_markCells hW.rect _ _
    · rw [hbuild]
      exact List.Nodup.sublist ((removeFirst_sublist b s.buildings).map _) hW.ids
    · intro x y c hx hy hcell2
      rw [hcfg] at hx hy
      rw [hgrid, getCell_markCells hW.rect hc none x y] at hcell2
      by_cases hmem : (x, y) ∈ footprintCells gx gy b.width_tiles b.height_tiles
      · rw [if_pos hmem] at hcell2
        exact absurd hcell2 (by simp)
      · rw [if_neg hmem] at hcell2
        obtain ⟨hcmem, hcfoot⟩ := hW.agrees.owner x y c hx hy hcell2
        have hcneb : c ≠ b := by
          intro habs
          subst habs
          exact hmem ((hmemiff x y).mp hcfoot)
        exact ⟨hbuild ▸ (mem_removeFirst_of_ne hcneb).mpr hcmem, hcfoot⟩
    · intro c hcmem x y hfoot
      rw [hbuild] at hcmem
      have hcneb : c ≠ b := by
        intro habs
        subst habs
        exact hbnotin hcmem
      have hcs : c ∈ s.buildings := (removeFirst_sublist b s.buildings).subset hcmem
      have hcellc := hW.agrees.covers c hcs x y hfoot
      have hnot : (x, y) ∉ footprintCells gx gy b.width_tiles b.height_tiles := by
        intro habs
        have hcellb := hW.agrees.covers b hbmem0 x y ((hmemiff x y).mpr habs)
        rw [hcellc] at hcellb
        exact hcneb (by injection hcellb)
      rw [hgrid, getCell_markCells hW.rect hc none x y, if_neg hnot]
      exact hcellc

/-- **C6 counterexample**: removing a 3×3 SPACEPORT through the non-origin
cell (1,1) clears the 3×3 rectangle starting at the *clicked* cell, not at
the building's origin, and removes the object from the owned list — so
cell (0,0) still references a structure that is no longer owned, breaking
the claimed grid/list agreement. -/
theorem c6_remove_nonorigin_breaks_grid_agreement :
    ¬ GridMatches (removeBuilding (addBuilding gs0 spBuilding 0 0) 1 1) := by
  intro h
  have hcell : getCell (removeBuilding (addBuilding gs0 spBuilding 0 0) 1 1).grid 0 0
      = some spBuilding := by decide
  have hmem := (h.owner 0 0 spBuilding (by decide) (by decide) hcell).1
  rw [show (removeBuilding (addBuilding gs0 spBuilding 0 0) 1 1).buildings = []
      from by decide] at hmem
  exact absurd hmem (List.not_mem_nil spBuilding)

/-- Witness for the amended C6: placing a COMMAND_CENTER on the fresh
colony and removing it at its origin keeps the state well-formed. -/
theorem c6_witness :
    WellFormedState (addBuilding gs0 ccBuilding 0 0) ∧
    WellFormedState (removeBuilding (addBuilding gs0 ccBuilding 0 0) 0 0) := by
  have h := c6_place_and_origin_remove_preserve_agreement
  have h1 := h.1 gs0 "COMMAND_CENTER" 1 0 0 ccBuilding
    { cost := 5000, power_draw := 10 } (by decide) (by decide) (by decide)
    (by decide) (wellFormed_init defaultConfig rgEmpty)
  have h2 := h.2 (addBuilding gs0 ccBuilding 0 0) 0 0 ccBuilding
    (by decide) (by decide) (by decide) h1
  exact ⟨h1, h2⟩
